import Mathlib

/-!
Verification of the LightDom learning-to-rank core against its specification.

The Python sources are shallowly embedded:
* machine floats become exact rationals (`ℚ`) where the code only does field
  arithmetic and comparisons, and real numbers (`ℝ`) where transcendental
  functions (`log2`, `exp`, `sqrt`) appear;
* a Python expression that can raise (division by zero, an unfittable layer)
  becomes an `Option`-valued function, `none` marking the raise;
* NumPy/pandas bulk operations become the corresponding list operations,
  element order preserved.
-/

set_option maxRecDepth 4000

/-! ## FeatureScoringSystem.py -/

/-- Embeds `class DataQuality(Enum)`. -/
inductive DataQuality where
  | excellent
  | good
  | fair
  | poor
deriving DecidableEq, Repr

/-- Embeds `class FeatureCategory(Enum)`. -/
inductive FeatureCategory where
  | onPage
  | technical
  | coreWebVitals
  | authority
  | engagement
  | content
  | temporal
  | interaction
  | composite
deriving DecidableEq, Repr

/-- One entry of the threshold table: the numeric fields of a
`thresholds['name'] = {...}` record (the `description` string is dropped as
it never enters any computation). -/
structure ThresholdConfig where
  category : FeatureCategory
  min_good : ℚ
  max_good : ℚ
  min_excellent : ℚ
  max_excellent : ℚ
  weight : ℚ
  inverse : Bool
deriving DecidableEq, Repr

/-- Embeds the Python dict membership/access `feature_name in thresholds` /
`thresholds[feature_name]` over the table represented as an association
list in insertion order. -/
def lookupThreshold (name : String) : List (String × ThresholdConfig) → Option ThresholdConfig
  | [] => none
  | (n, c) :: rest => if n = name then some c else lookupThreshold name rest

/-- Embeds the branch structure of `FeatureScoreThresholds.evaluate_feature`
once the config has been fetched.  Every Python division site is guarded:
if its divisor is zero (where CPython would raise `ZeroDivisionError`)
the result is `none`. -/
def evaluate_with_config (config : ThresholdConfig) (value : ℚ) : Option (DataQuality × ℚ) :=
  if config.inverse then
    if value ≤ config.min_excellent then some (DataQuality.excellent, 1)
    else if value ≤ config.max_excellent then
      if config.max_excellent - config.min_excellent = 0 then none
      else some (DataQuality.excellent,
        85/100 + 15/100 * (1 - (value - config.min_excellent) / (config.max_excellent - config.min_excellent)))
    else if value ≤ config.min_good then
      if config.min_good - config.max_excellent = 0 then none
      else some (DataQuality.good,
        7/10 + 15/100 * (1 - (value - config.max_excellent) / (config.min_good - config.max_excellent)))
    else if value ≤ config.max_good then
      if config.max_good - config.min_good = 0 then none
      else some (DataQuality.fair,
        1/2 + 2/10 * (1 - (value - config.min_good) / (config.max_good - config.min_good)))
    else
      if config.max_good = 0 then none
      else some (DataQuality.poor,
        max (1/10) (1/2 - 4/10 * ((value - config.max_good) / config.max_good)))
  else
    if config.min_excellent ≤ value ∧ value ≤ config.max_excellent then
      some (DataQuality.excellent, 1)
    else if config.min_good ≤ value ∧ value ≤ config.max_good then
      if value < config.min_excellent then
        if config.min_excellent - config.min_good = 0 then none
        else some (DataQuality.good,
          7/10 + 15/100 * (value - config.min_good) / (config.min_excellent - config.min_good))
      else
        if config.max_good - config.max_excellent = 0 then none
        else some (DataQuality.good,
          85/100 + 15/100 * (1 - (value - config.max_excellent) / (config.max_good - config.max_excellent)))
    else if config.min_good * (1/2) ≤ value ∧ value < config.min_good then
      if config.min_good * (1/2) = 0 then none
      else some (DataQuality.fair,
        1/2 + 2/10 * (value - config.min_good * (1/2)) / (config.min_good * (1/2)))
    else
      some (DataQuality.poor,
        max (1/10) (if 0 < config.min_good then 1/2 * (value / (config.min_good * (1/2))) else 1/10))

/-- Embeds `FeatureScoreThresholds.evaluate_feature(feature_name, value, thresholds)`:
unknown feature names degrade to `(FAIR, 0.5)`. -/
def evaluate_feature (feature_name : String) (value : ℚ)
    (thresholds : List (String × ThresholdConfig)) : Option (DataQuality × ℚ) :=
  match lookupThreshold feature_name thresholds with
  | none => some (DataQuality.fair, 1/2)
  | some config => evaluate_with_config config value
/-- Entries 0–9 of the threshold table of `get_all_thresholds`. -/
def thresholdsChunk0 : List (String × ThresholdConfig) := [
  ("title_tag_length", ⟨FeatureCategory.onPage, 30, 70, 50, 60, mkRat 3 2, false⟩),
  ("title_keyword_present", ⟨FeatureCategory.onPage, 1, 1, 1, 1, 2, false⟩),
  ("title_keyword_position", ⟨FeatureCategory.onPage, 0, 40, 0, 10, mkRat 13 10, true⟩),
  ("meta_description_length", ⟨FeatureCategory.onPage, 120, 160, 140, 155, mkRat 6 5, false⟩),
  ("meta_keyword_present", ⟨FeatureCategory.onPage, 1, 1, 1, 1, mkRat 3 2, false⟩),
  ("url_length", ⟨FeatureCategory.onPage, 20, 100, 30, 75, 1, true⟩),
  ("url_keyword_present", ⟨FeatureCategory.onPage, 1, 1, 1, 1, mkRat 9 5, false⟩),
  ("url_depth", ⟨FeatureCategory.onPage, 1, 3, 1, 2, mkRat 11 10, true⟩),
  ("h1_count", ⟨FeatureCategory.onPage, 1, 1, 1, 1, mkRat 9 5, false⟩),
  ("h1_keyword_present", ⟨FeatureCategory.onPage, 1, 1, 1, 1, mkRat 17 10, false⟩)]

/-- Entries 10–19 of the threshold table of `get_all_thresholds`. -/
def thresholdsChunk1 : List (String × ThresholdConfig) := [
  ("h2_count", ⟨FeatureCategory.onPage, 2, 8, 3, 6, mkRat 6 5, false⟩),
  ("h3_count", ⟨FeatureCategory.onPage, 0, 15, 3, 10, 1, false⟩),
  ("content_word_count", ⟨FeatureCategory.onPage, 1000, 5000, 1800, 3000, mkRat 8 5, false⟩),
  ("keyword_density", ⟨FeatureCategory.onPage, mkRat 1 2, mkRat 5 2, 1, 2, mkRat 13 10, false⟩),
  ("internal_links_count", ⟨FeatureCategory.onPage, 3, 20, 5, 15, mkRat 6 5, false⟩),
  ("external_links_count", ⟨FeatureCategory.onPage, 1, 10, 2, 6, 1, false⟩),
  ("image_count", ⟨FeatureCategory.onPage, 1, 20, 3, 12, mkRat 11 10, false⟩),
  ("images_with_alt_ratio", ⟨FeatureCategory.onPage, mkRat 7 10, 1, mkRat 9 10, 1, mkRat 7 5, false⟩),
  ("https_enabled", ⟨FeatureCategory.technical, 1, 1, 1, 1, mkRat 9 5, false⟩),
  ("mobile_friendly", ⟨FeatureCategory.technical, 1, 1, 1, 1, mkRat 19 10, false⟩)]

/-- Entries 20–29 of the threshold table of `get_all_thresholds`. -/
def thresholdsChunk2 : List (String × ThresholdConfig) := [
  ("page_load_time_ms", ⟨FeatureCategory.technical, 500, 3000, 500, 1500, mkRat 17 10, true⟩),
  ("page_size_kb", ⟨FeatureCategory.technical, 500, 3000, 800, 2000, mkRat 6 5, true⟩),
  ("robots_txt_present", ⟨FeatureCategory.technical, 1, 1, 1, 1, mkRat 13 10, false⟩),
  ("sitemap_xml_present", ⟨FeatureCategory.technical, 1, 1, 1, 1, mkRat 3 2, false⟩),
  ("canonical_tag_present", ⟨FeatureCategory.technical, 1, 1, 1, 1, mkRat 7 5, false⟩),
  ("structured_data_present", ⟨FeatureCategory.technical, 1, 1, 1, 1, mkRat 8 5, false⟩),
  ("crawl_errors_count", ⟨FeatureCategory.technical, 0, 5, 0, 0, mkRat 3 2, true⟩),
  ("broken_links_count", ⟨FeatureCategory.technical, 0, 3, 0, 0, mkRat 7 5, true⟩),
  ("lcp_score", ⟨FeatureCategory.coreWebVitals, 0, mkRat 5 2, 0, mkRat 9 5, 2, true⟩),
  ("fid_score", ⟨FeatureCategory.coreWebVitals, 0, 100, 0, 50, mkRat 9 5, true⟩)]

/-- Entries 30–39 of the threshold table of `get_all_thresholds`. -/
def thresholdsChunk3 : List (String × ThresholdConfig) := [
  ("inp_score", ⟨FeatureCategory.coreWebVitals, 0, 200, 0, 100, 2, true⟩),
  ("cls_score", ⟨FeatureCategory.coreWebVitals, 0, mkRat 1 10, 0, mkRat 1 20, mkRat 19 10, true⟩),
  ("ttfb_score", ⟨FeatureCategory.coreWebVitals, 0, 800, 0, 200, mkRat 3 2, true⟩),
  ("fcp_score", ⟨FeatureCategory.coreWebVitals, 0, mkRat 9 5, 0, 1, mkRat 8 5, true⟩),
  ("speed_index", ⟨FeatureCategory.coreWebVitals, 0, mkRat 17 5, 0, mkRat 13 10, mkRat 3 2, true⟩),
  ("tbt_score", ⟨FeatureCategory.coreWebVitals, 0, 200, 0, 100, mkRat 7 5, true⟩),
  ("domain_authority", ⟨FeatureCategory.authority, 30, 100, 50, 100, mkRat 9 5, false⟩),
  ("page_authority", ⟨FeatureCategory.authority, 20, 100, 40, 100, mkRat 17 10, false⟩),
  ("domain_rating", ⟨FeatureCategory.authority, 30, 100, 50, 100, mkRat 9 5, false⟩),
  ("url_rating", ⟨FeatureCategory.authority, 20, 100, 40, 100, mkRat 17 10, false⟩)]

/-- Entries 40–49 of the threshold table of `get_all_thresholds`. -/
def thresholdsChunk4 : List (String × ThresholdConfig) := [
  ("backlinks_total", ⟨FeatureCategory.authority, 10, 10000, 100, 10000, mkRat 8 5, false⟩),
  ("referring_domains", ⟨FeatureCategory.authority, 5, 5000, 50, 5000, mkRat 19 10, false⟩),
  ("dofollow_backlinks_ratio", ⟨FeatureCategory.authority, mkRat 1 2, 1, mkRat 7 10, 1, mkRat 3 2, false⟩),
  ("avg_referring_domain_rating", ⟨FeatureCategory.authority, 30, 100, 50, 100, mkRat 17 10, false⟩),
  ("trust_flow", ⟨FeatureCategory.authority, 20, 100, 40, 100, mkRat 8 5, false⟩),
  ("citation_flow", ⟨FeatureCategory.authority, 20, 100, 40, 100, mkRat 3 2, false⟩),
  ("organic_traffic_monthly", ⟨FeatureCategory.engagement, 100, 1000000, 1000, 1000000, mkRat 9 5, false⟩),
  ("avg_session_duration_sec", ⟨FeatureCategory.engagement, 60, 600, 120, 480, mkRat 8 5, false⟩),
  ("bounce_rate", ⟨FeatureCategory.engagement, mkRat 1 5, mkRat 3 5, mkRat 1 5, mkRat 2 5, mkRat 17 10, true⟩),
  ("pages_per_session", ⟨FeatureCategory.engagement, mkRat 3 2, 10, mkRat 5 2, 8, mkRat 3 2, false⟩)]

/-- Entries 50–59 of the threshold table of `get_all_thresholds`. -/
def thresholdsChunk5 : List (String × ThresholdConfig) := [
  ("ctr_from_serp", ⟨FeatureCategory.engagement, mkRat 1 50, mkRat 3 10, mkRat 1 20, mkRat 1 5, mkRat 19 10, false⟩),
  ("scroll_depth_avg", ⟨FeatureCategory.engagement, mkRat 2 5, 1, mkRat 3 5, 1, mkRat 13 10, false⟩),
  ("return_visitor_rate", ⟨FeatureCategory.engagement, mkRat 1 5, mkRat 4 5, mkRat 2 5, mkRat 7 10, mkRat 7 5, false⟩),
  ("readability_score", ⟨FeatureCategory.content, 40, 80, 50, 70, mkRat 7 5, false⟩),
  ("content_uniqueness_ratio", ⟨FeatureCategory.content, mkRat 7 10, 1, mkRat 9 10, 1, mkRat 9 5, false⟩),
  ("avg_sentence_length", ⟨FeatureCategory.content, 10, 25, 12, 20, mkRat 11 10, false⟩),
  ("paragraph_count", ⟨FeatureCategory.content, 5, 50, 10, 30, mkRat 6 5, false⟩),
  ("multimedia_elements_count", ⟨FeatureCategory.content, 2, 20, 4, 15, mkRat 13 10, false⟩),
  ("video_present", ⟨FeatureCategory.content, 0, 1, 1, 1, mkRat 3 2, false⟩),
  ("table_count", ⟨FeatureCategory.content, 0, 10, 1, 5, mkRat 11 10, false⟩)]

/-- Entries 60–69 of the threshold table of `get_all_thresholds`. -/
def thresholdsChunk6 : List (String × ThresholdConfig) := [
  ("list_count", ⟨FeatureCategory.content, 1, 15, 2, 8, mkRat 6 5, false⟩),
  ("page_age_days", ⟨FeatureCategory.temporal, 30, 3650, 180, 2000, mkRat 13 10, false⟩),
  ("last_updated_days_ago", ⟨FeatureCategory.temporal, 0, 180, 0, 90, mkRat 7 5, true⟩),
  ("traffic_growth_7d", ⟨FeatureCategory.temporal, mkRat (-1) 10, 1, mkRat 1 20, mkRat 1 2, mkRat 3 2, false⟩),
  ("traffic_growth_30d", ⟨FeatureCategory.temporal, mkRat (-1) 10, 1, mkRat 1 10, mkRat 4 5, mkRat 8 5, false⟩),
  ("ranking_volatility", ⟨FeatureCategory.temporal, 0, 5, 0, 2, mkRat 6 5, true⟩),
  ("content_authority_interaction", ⟨FeatureCategory.interaction, 500, 100000, 2000, 50000, mkRat 17 10, false⟩),
  ("engagement_position_interaction", ⟨FeatureCategory.interaction, mkRat 1 10, 1, mkRat 3 10, mkRat 9 10, mkRat 8 5, false⟩),
  ("mobile_traffic_mobile_friendly", ⟨FeatureCategory.interaction, mkRat 3 10, 1, mkRat 1 2, 1, mkRat 3 2, false⟩),
  ("authority_score", ⟨FeatureCategory.composite, 30, 100, 50, 100, mkRat 19 10, false⟩)]

/-- Entries 70–73 of the threshold table of `get_all_thresholds`. -/
def thresholdsChunk7 : List (String × ThresholdConfig) := [
  ("technical_health_score", ⟨FeatureCategory.composite, mkRat 7 10, 1, mkRat 9 10, 1, mkRat 9 5, false⟩),
  ("content_quality_score", ⟨FeatureCategory.composite, 60, 100, 80, 100, mkRat 19 10, false⟩),
  ("eeat_score", ⟨FeatureCategory.composite, mkRat 3 5, 1, mkRat 4 5, 1, 2, false⟩),
  ("overall_seo_score", ⟨FeatureCategory.composite, 60, 100, 80, 100, 2, false⟩)]

/-- Embeds the full table built by `FeatureScoreThresholds.get_all_thresholds`,
in insertion order. -/
def get_all_thresholds : List (String × ThresholdConfig) :=
  thresholdsChunk0 ++ thresholdsChunk1 ++ thresholdsChunk2 ++ thresholdsChunk3 ++ thresholdsChunk4 ++ thresholdsChunk5 ++ thresholdsChunk6 ++ thresholdsChunk7

/-- Intermediate accumulator of `calculate_overall_quality`'s feature loop:
feature scores in insertion order, the weighted sum, the total weight, and
per-category score lists in first-seen category order. -/
structure QualityAccum where
  feature_scores : List (String × DataQuality × ℚ)
  weighted_sum : ℚ
  total_weight : ℚ
  category_scores : List (FeatureCategory × List ℚ)
deriving DecidableEq, Repr

/-- Appends a score to its category's list, keeping first-seen category order
(the behaviour of the Python dict of lists). -/
def addCategoryScore : List (FeatureCategory × List ℚ) → FeatureCategory → ℚ →
    List (FeatureCategory × List ℚ)
  | [], c, s => [(c, [s])]
  | (c', l) :: rest, c, s =>
      if c' = c then (c', l ++ [s]) :: rest else (c', l) :: addCategoryScore rest c s

/-- Embeds the `for feature_name, value in features.items()` loop of
`calculate_overall_quality`; `none` if some evaluation raises. -/
def qualityLoop (thresholds : List (String × ThresholdConfig)) :
    List (String × ℚ) → QualityAccum → Option QualityAccum
  | [], acc => some acc
  | (name, value) :: rest, acc =>
      match lookupThreshold name thresholds with
      | none => qualityLoop thresholds rest acc
      | some config =>
          match evaluate_with_config config value with
          | none => none
          | some (quality, score) =>
              qualityLoop thresholds rest
                { feature_scores := acc.feature_scores ++ [(name, quality, score)]
                  weighted_sum := acc.weighted_sum + score * config.weight
                  total_weight := acc.total_weight + config.weight
                  category_scores := addCategoryScore acc.category_scores config.category score }

/-- The result record of `calculate_overall_quality`. -/
structure QualityReport where
  overall_quality : DataQuality
  overall_score : ℚ
  feature_scores : List (String × DataQuality × ℚ)
  category_scores : List (FeatureCategory × ℚ)
  good_features : ℕ
  poor_features : ℕ
  total_features : ℕ
deriving DecidableEq, Repr

/-- Embeds `FeatureScoreThresholds.calculate_overall_quality`; `none` if a
feature evaluation raises. -/
def calculate_overall_quality (features : List (String × ℚ))
    (thresholds : List (String × ThresholdConfig)) : Option QualityReport :=
  match qualityLoop thresholds features ⟨[], 0, 0, []⟩ with
  | none => none
  | some acc =>
      let overall_score : ℚ :=
        if 0 < acc.total_weight then acc.weighted_sum / acc.total_weight * 100 else 0
      let category_scores := acc.category_scores.map fun p => (p.1, p.2.sum / (p.2.length : ℚ) * 100)
      let overall_quality :=
        if 80 ≤ overall_score then DataQuality.excellent
        else if 70 ≤ overall_score then DataQuality.good
        else if 50 ≤ overall_score then DataQuality.fair
        else DataQuality.poor
      let good_features :=
        (acc.feature_scores.filter fun p =>
          p.2.1 = DataQuality.excellent ∨ p.2.1 = DataQuality.good).length
      let poor_features :=
        (acc.feature_scores.filter fun p => p.2.1 = DataQuality.poor).length
      some { overall_quality, overall_score,
             feature_scores := acc.feature_scores, category_scores,
             good_features, poor_features,
             total_features := acc.feature_scores.length }

/-! ## RankingPredictor.py -/

/-- Embeds `np.argsort(vals)`: the indices `0..n-1` sorted ascending by the
value they point at (tie order is implementation-defined in NumPy's quicksort;
here it is the insertion-sort order). -/
def argsort {α : Type} [LinearOrder α] [Inhabited α] (vals : List α) : List ℕ :=
  List.insertionSort (fun i j => vals.getD i default ≤ vals.getD j default)
    (List.range vals.length)

/-- Embeds `np.argsort(vals)[::-1]`: indices sorted by value, descending. -/
def sortedIndicesDesc {α : Type} [LinearOrder α] [Inhabited α] (vals : List α) : List ℕ :=
  (argsort vals).reverse

/-- Embeds fancy indexing `arr[indices]` / `df.iloc[indices]`. -/
def applyPerm {α : Type} [Inhabited α] (l : List α) (idxs : List ℕ) : List α :=
  idxs.map (fun i => l.getD i default)

/-- Embeds `pd.Series(vals).value_counts().sort_index().values`: the count of
each distinct value, listed by ascending value. -/
def value_counts_sorted (l : List ℤ) : List ℕ :=
  (List.insertionSort (· ≤ ·) l.dedup).map (fun v => l.count v)

/-- The eight arrays returned by `SEORankingPredictor.prepare_ranking_data`. -/
structure RankingSplit where
  X_train : List (List ℚ)
  X_test : List (List ℚ)
  y_train : List ℚ
  y_test : List ℚ
  qid_train : List ℤ
  qid_test : List ℤ
  train_groups : List ℕ
  test_groups : List ℕ

/-- Embeds `SEORankingPredictor.prepare_ranking_data`.  The `np.random.choice`
draw of test queries (seeded Mersenne Twister) is modelled by the explicit
`test_queries` parameter: the code's masks and group counts are computed from
that set exactly as in the source. -/
def prepare_ranking_data (features : List (List ℚ)) (labels : List ℚ)
    (query_ids : List ℤ) (test_queries : List ℤ) : RankingSplit :=
  let sorted_indices := argsort query_ids
  let features' := applyPerm features sorted_indices
  let labels' := applyPerm labels sorted_indices
  let query_ids' := applyPerm query_ids sorted_indices
  let rows := query_ids'.zip (features'.zip labels')
  let test_rows := rows.filter (fun r => test_queries.contains r.1)
  let train_rows := rows.filter (fun r => !(test_queries.contains r.1))
  { X_train := train_rows.map (fun r => r.2.1)
    X_test := test_rows.map (fun r => r.2.1)
    y_train := train_rows.map (fun r => r.2.2)
    y_test := test_rows.map (fun r => r.2.2)
    qid_train := train_rows.map (fun r => r.1)
    qid_test := test_rows.map (fun r => r.1)
    train_groups := value_counts_sorted (train_rows.map (fun r => r.1))
    test_groups := value_counts_sorted (test_rows.map (fun r => r.1)) }

/-- Embeds the `for i, is_relevant in enumerate(sorted_true)` precision loop of
`_calculate_map`: position counter `i` and running `relevant_count`. -/
def apPrecisions : List ℕ → ℕ → ℕ → List ℚ
  | [], _, _ => []
  | is_relevant :: rest, i, relevant_count =>
      if is_relevant ≠ 0 then
        ((relevant_count + 1 : ℕ) : ℚ) / ((i + 1 : ℕ) : ℚ) ::
          apPrecisions rest (i + 1) (relevant_count + 1)
      else apPrecisions rest (i + 1) relevant_count

/-- One group's body inside `_calculate_map`: binarise (`label ≥ 2`), `none`
when the group holds no relevant document (the `continue`), else the average
precision. -/
def average_precision (group_true group_pred : List ℚ) : Option ℚ :=
  let binary_true := group_true.map (fun l => if (2 : ℚ) ≤ l then (1 : ℕ) else 0)
  if binary_true.sum = 0 then none
  else
    let sorted_indices := sortedIndicesDesc group_pred
    let sorted_true := sorted_indices.map (fun i => binary_true.getD i 0)
    let precisions := apPrecisions sorted_true 0 0
    some (if precisions = [] then 0 else precisions.sum / (precisions.length : ℚ))

/-- The `ap_scores` list accumulated by `_calculate_map`'s group walk
(`start_idx`/`end_idx` slicing becomes `take`/`drop`). -/
def calcApScores : List ℚ → List ℚ → List ℕ → List ℚ
  | _, _, [] => []
  | y_true, y_pred, group_size :: rest =>
      let tail := calcApScores (y_true.drop group_size) (y_pred.drop group_size) rest
      match average_precision (y_true.take group_size) (y_pred.take group_size) with
      | none => tail
      | some ap => ap :: tail

/-- Embeds `SEORankingPredictor._calculate_map`. -/
def calculate_map (y_true y_pred : List ℚ) (groups : List ℕ) : ℚ :=
  let ap_scores := calcApScores y_true y_pred groups
  if ap_scores = [] then 0 else ap_scores.sum / (ap_scores.length : ℚ)

/-- The gain `2**relevance - 1` of an integer relevance grade (the source's
labels are the 0–4 graded scale). -/
noncomputable def gainOf (rel : ℕ) : ℝ := 2 ^ rel - 1

/-- The discounted sum `Σ gains[i] / log2(i + 2)` shared by the DCG and ideal
DCG loops of `_calculate_ndcg_at_k`. -/
noncomputable def dcgOfGains (gains : List ℝ) : ℝ :=
  ∑ i in Finset.range gains.length, gains.getD i 0 / Real.logb 2 (i + 2)

/-- The `dcg` accumulated over `sorted_indices[:min(k, len(sorted_indices))]`
in `_calculate_ndcg_at_k`. -/
noncomputable def ndcg_dcg (y_true : List ℕ) (y_pred : List ℚ) (k : ℕ) : ℝ :=
  let sorted_indices := sortedIndicesDesc y_pred
  let top_k_indices := sorted_indices.take (min k sorted_indices.length)
  dcgOfGains (top_k_indices.map (fun idx => gainOf (y_true.getD idx 0)))

/-- Embeds `np.sort(y_true)[::-1]`. -/
def sortDescNat (l : List ℕ) : List ℕ := (List.insertionSort (· ≤ ·) l).reverse

/-- The `idcg` computed from `np.sort(y_true)[::-1][:k]` in
`_calculate_ndcg_at_k`. -/
noncomputable def ndcg_idcg (y_true : List ℕ) (k : ℕ) : ℝ :=
  dcgOfGains (((sortDescNat y_true).take k).map gainOf)

/-- Embeds `SEORankingPredictor._calculate_ndcg_at_k`: `dcg / idcg`, defined
as 0 when `idcg == 0`. -/
noncomputable def calculate_ndcg_at_k (y_true : List ℕ) (y_pred : List ℚ) (k : ℕ) : ℝ :=
  if ndcg_idcg y_true k = 0 then 0
  else ndcg_dcg y_true y_pred k / ndcg_idcg y_true k


/-- Shifts a permutation of ℕ up by one, fixing 0 (used to transport a
permutation of a list's tail across `cons`). -/
def succPerm (σ : Equiv.Perm ℕ) : Equiv.Perm ℕ where
  toFun n := match n with | 0 => 0 | i + 1 => σ i + 1
  invFun n := match n with | 0 => 0 | i + 1 => σ.symm i + 1
  left_inv n := by cases n <;> simp
  right_inv n := by cases n <;> simp


/-- The truncated discount weight `1/log2(i+2)` for ranks `i < k`, 0 beyond:
the coefficient with which rank `i` enters DCG@k. -/
noncomputable def ndcgWeight (k i : ℕ) : ℝ := if i < k then (Real.logb 2 (i + 2))⁻¹ else 0


/-! ## NeuralNetworkRealTime.py -/

/-- Embeds `torch.unique(query_ids)`: distinct values in ascending order. -/
def torchUnique (l : List ℤ) : List ℤ := List.insertionSort (· ≤ ·) l.dedup

/-- Boolean-mask selection `tensor[query_ids == qid]`, as the list of selected
row indices in order. -/
def maskIndices (query_ids : List ℤ) (q : ℤ) : List ℕ :=
  (List.range query_ids.length).filter (fun i => query_ids.getD i 0 = q)

/-- Embeds `torch.argsort(torch.argsort(q_scores, descending=True))`: the
descending-order rank of each row of the group. -/
def torchRanks (scores : List ℚ) : List ℕ := argsort (sortedIndicesDesc scores)

/-- Embeds `LambdaRankLoss.ndcg_lambda_weight`. -/
noncomputable def ndcg_lambda_weight (positions_i positions_j : ℕ) : ℝ :=
  |1 / Real.logb 2 ((positions_i : ℝ) + 2) - 1 / Real.logb 2 ((positions_j : ℝ) + 2)|

/-- One pair's logistic loss inside `LambdaRankLoss.forward`, oriented by which
row has the higher true label. -/
noncomputable def pair_loss (sigma : ℝ) (score_i score_j label_i label_j : ℚ) : ℝ :=
  if (label_i : ℚ) - label_j > 0 then
    Real.log (1 + Real.exp (-sigma * ((score_i : ℝ) - (score_j : ℝ))))
  else
    Real.log (1 + Real.exp (sigma * ((score_i : ℝ) - (score_j : ℝ))))

/-- The `loss` contribution of one query group: the double loop
`for i ... for j in range(i+1, ...)` guarded by `q_labels[i] != q_labels[j]`
(groups of fewer than two rows are skipped).  The `positions` tensor is
`argsort(argsort(q_scores, descending=True))`, constant across the loop. -/
noncomputable def groupLoss (sigma : ℝ) (q_scores q_labels : List ℚ) : ℝ :=
  if q_scores.length < 2 then 0
  else
    ∑ i in Finset.range q_scores.length, ∑ j in Finset.Ico (i + 1) q_scores.length,
      if q_labels.getD i 0 ≠ q_labels.getD j 0 then
        ndcg_lambda_weight ((torchRanks q_scores).getD i 0) ((torchRanks q_scores).getD j 0) *
          pair_loss sigma (q_scores.getD i 0) (q_scores.getD j 0)
            (q_labels.getD i 0) (q_labels.getD j 0)
      else 0

/-- The `count` contribution of one query group (number of informative pairs). -/
def groupCount (q_scores q_labels : List ℚ) : ℕ :=
  if q_scores.length < 2 then 0
  else
    ∑ i in Finset.range q_scores.length, ∑ j in Finset.Ico (i + 1) q_scores.length,
      if q_labels.getD i 0 ≠ q_labels.getD j 0 then 1 else 0

/-- Embeds `LambdaRankLoss.forward(scores, labels, query_ids)`:
`loss / max(count, 1)` over all query groups. -/
noncomputable def LambdaRankLoss_forward (sigma : ℝ) (scores labels : List ℚ)
    (query_ids : List ℤ) : ℝ :=
  let unique_queries := torchUnique query_ids
  let total_loss := (unique_queries.map (fun q =>
    let idxs := maskIndices query_ids q
    groupLoss sigma (idxs.map (fun i => scores.getD i 0))
      (idxs.map (fun i => labels.getD i 0)))).sum
  let total_count := (unique_queries.map (fun q =>
    let idxs := maskIndices query_ids q
    groupCount (idxs.map (fun i => scores.getD i 0))
      (idxs.map (fun i => labels.getD i 0)))).sum
  total_loss / (max total_count 1 : ℕ)

/-- The parameters of one `nn.Linear`. -/
structure LinearParams where
  weight : List (List ℝ)
  bias : List ℝ

/-- One element of the `nn.Sequential` built by `DeepRankingNetwork.__init__`
(`BatchNorm1d`'s running statistics are omitted: a training-mode forward pass
normalises with batch statistics, never reading them). -/
inductive TorchLayer where
  | linear (weight : List (List ℝ)) (bias : List ℝ)
  | batchNorm1d (gamma beta : List ℝ)
  | relu
  | dropout (p : ℝ)

/-- Embeds the layer list built by `DeepRankingNetwork.__init__`: per hidden
layer a `Linear`, a `BatchNorm1d` (when `use_batch_norm`), a `ReLU` and a
`Dropout`, then the final scalar `Linear`.  The learned parameter values are
supplied per layer. -/
def drnLayers (hiddenParams : List (LinearParams × List ℝ × List ℝ))
    (outParams : LinearParams) (dropout : ℝ) (use_batch_norm : Bool) : List TorchLayer :=
  (hiddenParams.map (fun hp =>
    [TorchLayer.linear hp.1.weight hp.1.bias] ++
    (if use_batch_norm then [TorchLayer.batchNorm1d hp.2.1 hp.2.2] else []) ++
    [TorchLayer.relu, TorchLayer.dropout dropout])).flatten ++
  [TorchLayer.linear outParams.weight outParams.bias]

/-- `nn.Linear` applied to one row: `W @ row + b`. -/
def linearApply (W : List (List ℝ)) (b : List ℝ) (row : List ℝ) : List ℝ :=
  (W.zip b).map (fun wb => ((wb.1.zip row).map (fun p => p.1 * p.2)).sum + wb.2)

/-- Per-feature batch mean used by a training-mode `BatchNorm1d`. -/
noncomputable def batchMean (batch : List (List ℝ)) (c : ℕ) : ℝ :=
  (batch.map (fun row => row.getD c 0)).sum / (batch.length : ℝ)

/-- Per-feature (biased) batch variance used by a training-mode `BatchNorm1d`. -/
noncomputable def batchVar (batch : List (List ℝ)) (c : ℕ) : ℝ :=
  (batch.map (fun row => (row.getD c 0 - batchMean batch c) ^ 2)).sum / (batch.length : ℝ)

/-- Training-mode `BatchNorm1d` output (ε = 1e-5). -/
noncomputable def batchNormTrain (gamma beta : List ℝ) (batch : List (List ℝ)) :
    List (List ℝ) :=
  batch.map (fun row => row.mapIdx (fun c x =>
    gamma.getD c 1 * ((x - batchMean batch c) / Real.sqrt (batchVar batch c + 1/100000)) +
      beta.getD c 0))

/-- A training-mode (`model.train()`) forward pass through the sequential
layers.  `noise` supplies the Bernoulli draws of the dropout layers (indexed by
dropout-layer counter, row, column).  A `BatchNorm1d` reached with a batch of
fewer than two rows raises `ValueError` in PyTorch
(`_verify_batch_size`); that raise is the `Except.error` case. -/
noncomputable def forwardTrain (noise : ℕ → ℕ → ℕ → ℝ) :
    List TorchLayer → ℕ → List (List ℝ) → Except String (List (List ℝ))
  | [], _, batch => Except.ok batch
  | TorchLayer.linear W b :: rest, t, batch =>
      forwardTrain noise rest t (batch.map (linearApply W b))
  | TorchLayer.batchNorm1d gamma beta :: rest, t, batch =>
      if batch.length ≤ 1 then
        Except.error "Expected more than 1 value per channel when training"
      else forwardTrain noise rest t (batchNormTrain gamma beta batch)
  | TorchLayer.relu :: rest, t, batch =>
      forwardTrain noise rest t (batch.map (fun row => row.map (fun x => max x 0)))
  | TorchLayer.dropout p :: rest, t, batch =>
      forwardTrain noise rest (t + 1)
        (batch.mapIdx (fun r row => row.mapIdx (fun c x => x * noise t r c / (1 - p))))

/-- Embeds `RealTimeSEORanker.online_update(x, y, query_id)`: the model is put
in training mode, the single sample is forwarded as a batch of one, and the MSE
loss against `y` is returned (`Except.error` when the forward raises — the
parameter step never happens in that case). -/
noncomputable def online_update (layers : List TorchLayer) (noise : ℕ → ℕ → ℕ → ℝ)
    (x : List ℝ) (y : ℝ) : Except String ℝ :=
  match forwardTrain noise layers 0 [x] with
  | Except.error e => Except.error e
  | Except.ok out => Except.ok (((out.getD 0 []).getD 0 0 - y) ^ 2)


/-! ## FeatureEngineering.py

The pandas data model is embedded as named, dtype-tagged columns of cells.
IEEE specials are collapsed: `NaN` and `±inf` are both the `null` cell (the
one exception, the `content_to_code_ratio` `inf` placeholder, is immediately
replaced by 100 in the source and is embedded that way).  Python float
scalars that only ever hold literal weights are embedded as `ℚ` so that the
guards comparing them stay decidable; cell data is `ℝ`. -/

/-- One cell of a pandas column. -/
inductive PdValue where
  | num (x : ℝ)
  | str (s : String)
  | null

/-- The dtype of a pandas column (`float64`, `bool`, `object`, `category`). -/
inductive PdType where
  | float
  | boolean
  | text
  | cat
deriving DecidableEq

/-- A pandas column: a dtype tag and the cells. -/
structure PdColumn where
  dtype : PdType
  cells : List PdValue

/-- A pandas DataFrame: named columns in order. -/
abbrev DataFrame := List (String × PdColumn)

/-- `df[name]`, when present. -/
def getCol (df : DataFrame) (name : String) : Option PdColumn :=
  match df with
  | [] => none
  | (n, c) :: rest => if n = name then some c else getCol rest name

/-- `name in df.columns`. -/
def hasCol (df : DataFrame) (name : String) : Bool := (getCol df name).isSome

/-- `df[name] = col`: replace in place when the column exists, else append. -/
def setCol (df : DataFrame) (name : String) (col : PdColumn) : DataFrame :=
  match df with
  | [] => [(name, col)]
  | (n, c) :: rest => if n = name then (name, col) :: rest else (n, c) :: setCol rest name col

/-- `all(col in df.columns for col in names)`. -/
def hasCols (df : DataFrame) (names : List String) : Bool :=
  names.all (hasCol df)

/-- A unary numeric operation on a cell; non-numeric input gives `NaN`. -/
def mapNum (f : ℝ → ℝ) : PdValue → PdValue
  | PdValue.num x => PdValue.num (f x)
  | _ => PdValue.null

/-- A binary numeric operation on cells; any non-numeric operand gives `NaN`. -/
def num2 (f : ℝ → ℝ → ℝ) : PdValue → PdValue → PdValue
  | PdValue.num a, PdValue.num b => PdValue.num (f a b)
  | _, _ => PdValue.null

/-- Cell division: division by zero (IEEE `±inf`/`NaN`) is `null`. -/
noncomputable def numDiv : PdValue → PdValue → PdValue
  | PdValue.num a, PdValue.num b => if b = 0 then PdValue.null else PdValue.num (a / b)
  | _, _ => PdValue.null

/-- A unary numeric column operation applied cellwise; result dtype `float`. -/
def colMap (f : ℝ → ℝ) (c : PdColumn) : PdColumn :=
  ⟨PdType.float, c.cells.map (mapNum f)⟩

/-- A binary numeric column operation applied cellwise. -/
def colZip (f : ℝ → ℝ → ℝ) (a b : PdColumn) : PdColumn :=
  ⟨PdType.float, List.zipWith (num2 f) a.cells b.cells⟩

/-- Cellwise column division (denominator 0 ⇒ `null`). -/
noncomputable def colDiv (a b : PdColumn) : PdColumn :=
  ⟨PdType.float, List.zipWith numDiv a.cells b.cells⟩

/-- The numeric values of a column, nulls dropped (`dropna`). -/
def numCells (c : PdColumn) : List ℝ :=
  c.cells.filterMap (fun v => match v with | PdValue.num x => some x | _ => none)

/-- Whether any cell is null (`isna().any()`). -/
def hasNull (c : PdColumn) : Bool :=
  c.cells.any (fun v => match v with | PdValue.null => true | _ => false)

/-- The mean of a list of reals (0 for the empty list, where pandas gives NaN;
callers guard emptiness). -/
noncomputable def rmean (l : List ℝ) : ℝ := l.sum / (l.length : ℝ)

/-- Population (ddof = 0) variance. -/
noncomputable def rvarP (l : List ℝ) : ℝ :=
  (l.map (fun x => (x - rmean l) ^ 2)).sum / (l.length : ℝ)

/-- Sample (ddof = 1) standard deviation, the pandas `std` default;
`null`-style 0 never reaches callers: they guard `length < 2`. -/
noncomputable def rstdS (l : List ℝ) : ℝ :=
  Real.sqrt ((l.map (fun x => (x - rmean l) ^ 2)).sum / ((l.length : ℝ) - 1))

/-- The median of a list of reals (`Series.median()` over non-null values). -/
noncomputable def rmedian (l : List ℝ) : ℝ :=
  let sorted := List.insertionSort (· ≤ ·) l
  if l.length % 2 = 1 then sorted.getD (l.length / 2) 0
  else (sorted.getD (l.length / 2 - 1) 0 + sorted.getD (l.length / 2) 0) / 2

/-- `scipy.stats.zscore` of a column (ddof = 0), after the source's `fillna`;
a zero standard deviation yields IEEE `NaN`s, embedded as `null`s. -/
noncomputable def zscoreCol (c : PdColumn) : PdColumn :=
  let vals := numCells c
  let m := rmean vals
  let sd := Real.sqrt (rvarP vals)
  if sd = 0 then ⟨PdType.float, c.cells.map (fun _ => PdValue.null)⟩
  else ⟨PdType.float, c.cells.map (mapNum (fun x => (x - m) / sd))⟩

/-- `col.fillna(v)`. -/
def fillnaNum (c : PdColumn) (v : ℝ) : PdColumn :=
  ⟨c.dtype, c.cells.map (fun cell => match cell with
    | PdValue.null => PdValue.num v
    | other => other)⟩

/-- The `astype(int)` pass over `select_dtypes(['bool'])` columns. -/
def boolsToInt (df : DataFrame) : DataFrame :=
  df.map (fun nc =>
    if nc.2.dtype = PdType.boolean then (nc.1, ⟨PdType.float, nc.2.cells⟩) else nc)

/-- Civil date from days since 1970-01-01 (Gregorian, Hinnant's algorithm,
truncating division on non-negative operands as in the reference C code). -/
def civilFromDays (z0 : ℤ) : ℤ × ℤ × ℤ :=
  let z := z0 + 719468
  let era := (if 0 ≤ z then z else z - 146096) / 146097
  let doe := z - era * 146097
  let yoe := (doe - doe / 1460 + doe / 36524 - doe / 146096) / 365
  let doy := doe - (365 * yoe + yoe / 4 - yoe / 100)
  let mp := (5 * doy + 2) / 153
  let d := doy - (153 * mp + 2) / 5 + 1
  let m := mp + (if mp < 10 then 3 else -9)
  (yoe + era * 400 + (if m ≤ 2 then 1 else 0), m, d)

/-- `pd.to_datetime(...).dt.hour` of an epoch-seconds cell. -/
noncomputable def dtHour : PdValue → PdValue :=
  mapNum (fun t => (((Int.floor t).fdiv 3600).emod 24 : ℤ))

/-- `.dt.dayofweek` (Monday = 0; 1970-01-01 was a Thursday). -/
noncomputable def dtDayofweek : PdValue → PdValue :=
  mapNum (fun t => (((Int.floor t).fdiv 86400 + 3).emod 7 : ℤ))

/-- `.dt.day`. -/
noncomputable def dtDay : PdValue → PdValue :=
  mapNum (fun t => ((civilFromDays ((Int.floor t).fdiv 86400)).2.2 : ℤ))

/-- `.dt.month`. -/
noncomputable def dtMonth : PdValue → PdValue :=
  mapNum (fun t => ((civilFromDays ((Int.floor t).fdiv 86400)).2.1 : ℤ))

/-- A string-cell operation; non-string cells (`NaN`) stay `NaN`. -/
def mapStr (f : String → PdValue) : PdValue → PdValue
  | PdValue.str s => f s
  | _ => PdValue.null

/-- `str.count` of a single character. -/
def countChar (s : String) (c : Char) : ℕ :=
  (s.toList.filter (fun ch => ch = c)).length

/-- The `is_subdomain` lambda of `_create_basic_features`. -/
def isSubdomainOf (s : String) : ℝ :=
  let parts := s.splitOn "/"
  if 2 < parts.length then
    if 2 < ((parts.getD 2 "").splitOn ".").length then 1 else 0
  else 0

/-- `pd.cut` with right-closed bins and the given labels; `topInf` marks a
`float('inf')` last edge.  Values outside every bin (and `NaN`s) give `NaN`. -/
noncomputable def pdCut (c : PdColumn) (edges : List ℝ) (topInf : Bool)
    (labels : List String) : PdColumn :=
  ⟨PdType.cat, c.cells.map (fun v =>
    match v with
    | PdValue.num x =>
        let rec pick : List ℝ → List String → PdValue
          | lo :: hi :: es, lab :: labs =>
              if lo < x ∧ x ≤ hi then PdValue.str lab else pick (hi :: es) labs
          | [lo], [lab] => if topInf ∧ lo < x then PdValue.str lab else PdValue.null
          | _, _ => PdValue.null
        pick edges labels
    | _ => PdValue.null)⟩

/-- `pd.get_dummies(col, prefix=pfx)` over a categorical with the fixed label
set: one 0/1 column per category, `NaN` rows all-zero. -/
def getDummies (c : PdColumn) (labels : List String) (pfx : String) :
    List (String × PdColumn) :=
  labels.map (fun lab =>
    (pfx ++ "_" ++ lab,
     ⟨PdType.float, c.cells.map (fun v =>
        match v with
        | PdValue.str s => PdValue.num (if s = lab then 1 else 0)
        | _ => PdValue.num 0)⟩))

/-- Embeds `SEOFeatureEngineer._create_basic_features`. -/
noncomputable def create_basic_features (df0 : DataFrame) : DataFrame :=
  let df1 := boolsToInt df0
  let df2 := match getCol df1 "crawl_timestamp" with
    | none => df1
    | some c =>
        let dfa := setCol df1 "crawl_hour" ⟨PdType.float, c.cells.map dtHour⟩
        let dfb := setCol dfa "crawl_dayofweek" ⟨PdType.float, c.cells.map dtDayofweek⟩
        let dfc := setCol dfb "crawl_day" ⟨PdType.float, c.cells.map dtDay⟩
        setCol dfc "crawl_month" ⟨PdType.float, c.cells.map dtMonth⟩
  let df3 := match getCol df2 "url" with
    | none => df2
    | some c =>
        let dfa := setCol df2 "url_length"
          ⟨PdType.float, c.cells.map (mapStr (fun s => PdValue.num s.length))⟩
        let dfb := setCol dfa "url_depth"
          ⟨PdType.float, c.cells.map (mapStr (fun s => PdValue.num (countChar s '/')))⟩
        let hasParams : PdColumn :=
          ⟨PdType.float, c.cells.map (mapStr (fun s =>
            PdValue.num (if countChar s '?' ≠ 0 then 1 else 0)))⟩
        let dfc := setCol dfb "url_has_params" hasParams
        let dfd := setCol dfc "url_param_count"
          (colZip (· + ·)
            ⟨PdType.float, c.cells.map (mapStr (fun s => PdValue.num (countChar s '&')))⟩
            hasParams)
        setCol dfd "is_subdomain"
          ⟨PdType.float, c.cells.map (mapStr (fun s => PdValue.num (isSubdomainOf s)))⟩
  let df4 := match getCol df3 "content_readability_score" with
    | none => df3
    | some c =>
        let labels := ["very_hard", "hard", "moderate", "easy"]
        let binned := pdCut c [0, 30, 60, 90, 100] false labels
        setCol df3 "readability_bin" binned ++ getDummies binned labels "readability"
  let cwvLabels := ["good", "needs_improvement", "poor"]
  let df5 := match getCol df4 "largest_contentful_paint" with
    | none => df4
    | some c =>
        let binned := pdCut c [0, 2500, 4000] true cwvLabels
        setCol df4 "lcp_category" binned ++ getDummies binned cwvLabels "lcp"
  let df6 := match getCol df5 "interaction_to_next_paint" with
    | none => df5
    | some c =>
        let binned := pdCut c [0, 200, 500] true cwvLabels
        setCol df5 "inp_category" binned ++ getDummies binned cwvLabels "inp"
  match getCol df6 "cumulative_layout_shift" with
  | none => df6
  | some c =>
      let binned := pdCut c [0, 1/10, 1/4] true cwvLabels
      setCol df6 "cls_category" binned ++ getDummies binned cwvLabels "cls"

/-- `np.where(cond > 0, val, default)`: rows whose condition cell is not a
positive number (including `NaN`, which compares `False`) take the default. -/
noncomputable def whereGtZero (cond val : PdColumn) (dflt : ℝ) : PdColumn :=
  ⟨PdType.float, List.zipWith (fun cv v =>
    match cv with
    | PdValue.num c => if 0 < c then v else PdValue.num dflt
    | _ => PdValue.num dflt) cond.cells val.cells⟩

/-- A cell operation producing an optional number from a number. -/
def mapNumV (f : ℝ → PdValue) : PdValue → PdValue
  | PdValue.num x => f x
  | _ => PdValue.null

/-- A row-wise aggregation over several columns, skipping nulls (pandas
`axis=1` aggregations' `skipna` default). -/
def rowAgg (cols : List PdColumn) (f : List ℝ → PdValue) : PdColumn :=
  let n := (cols.headD ⟨PdType.float, []⟩).cells.length
  ⟨PdType.float, (List.range n).map (fun i =>
    f (cols.filterMap (fun c =>
      match c.cells.getD i PdValue.null with
      | PdValue.num x => some x
      | _ => none)))⟩

/-- `df[cols].sum(axis=1)`. -/
def rowSum (cols : List PdColumn) : PdColumn := rowAgg cols (fun l => PdValue.num l.sum)

/-- `df[cols].mean(axis=1)`. -/
noncomputable def rowMean (cols : List PdColumn) : PdColumn :=
  rowAgg cols (fun l => if l.length = 0 then PdValue.null else PdValue.num (rmean l))

/-- `df[cols].std(axis=1)` (sample std, NaN under two observations). -/
noncomputable def rowStd (cols : List PdColumn) : PdColumn :=
  rowAgg cols (fun l => if l.length < 2 then PdValue.null else PdValue.num (rstdS l))

/-- The image-alt block of `_create_ratio_features`. -/
noncomputable def ratioStepImageAlt (df0 : DataFrame) : DataFrame :=
  if hasCols df0 ["images_with_alt_text", "image_count"] then
    match getCol df0 "images_with_alt_text", getCol df0 "image_count" with
    | some alt, some cnt => setCol df0 "image_alt_ratio" (whereGtZero cnt (colDiv alt cnt) 1)
    | _, _ => df0
  else df0

/-- The dofollow block of `_create_ratio_features`. -/
noncomputable def ratioStepDofollow (df1 : DataFrame) : DataFrame :=
  if hasCols df1 ["dofollow_links", "total_backlinks"] then
    match getCol df1 "dofollow_links", getCol df1 "total_backlinks" with
    | some dofollow, some total =>
        setCol df1 "dofollow_ratio" (whereGtZero total (colDiv dofollow total) 0)
    | _, _ => df1
  else df1

/-- The authority-distribution block of `_create_ratio_features`. -/
noncomputable def ratioStepAuthority (df2 : DataFrame) : DataFrame :=
  if hasCols df2 ["high_authority_links", "medium_authority_links",
      "low_authority_links", "total_backlinks"] then
    match getCol df2 "high_authority_links", getCol df2 "low_authority_links",
        getCol df2 "total_backlinks" with
    | some high, some low, some total =>
        let dfa := setCol df2 "high_authority_ratio"
          (whereGtZero total (colDiv high total) 0)
        setCol dfa "authority_concentration"
          (whereGtZero total (colDiv high (colMap (fun x => x + 1) low)) 0)
    | _, _, _ => df2
  else df2

/-- The anchor-diversity block of `_create_ratio_features`. -/
noncomputable def ratioStepAnchors (df3 : DataFrame) : DataFrame :=
  let anchor_cols := ["exact_match_anchors", "partial_match_anchors",
    "branded_anchors", "generic_anchors"]
  if hasCols df3 anchor_cols then
    let total_anchors := rowSum (anchor_cols.filterMap (getCol df3))
    anchor_cols.foldl (fun df col =>
      match getCol df3 col with
      | some c =>
          let ratio_col := (col.dropRight "_anchors".length) ++ "_anchor_ratio"
          setCol df ratio_col (whereGtZero total_anchors (colDiv c total_anchors) 0)
      | none => df) df3
  else df3

/-- The content-to-code block of `_create_ratio_features`. -/
noncomputable def ratioStepContentCode (df4 : DataFrame) : DataFrame :=
  if hasCols df4 ["content_length", "javascript_size", "css_size"] then
    match getCol df4 "content_length", getCol df4 "javascript_size",
        getCol df4 "css_size" with
    | some content, some js, some css =>
        let total_code := colZip (· + ·) js css
        setCol df4 "content_to_code_ratio"
          (whereGtZero total_code (colDiv content total_code) 100)
    | _, _, _ => df4
  else df4

/-- The engagement-efficiency block of `_create_ratio_features`. -/
noncomputable def ratioStepEngagement (df5 : DataFrame) : DataFrame :=
  if hasCols df5 ["engagement_rate", "bounce_rate"] then
    match getCol df5 "engagement_rate", getCol df5 "bounce_rate" with
    | some e, some b =>
        setCol df5 "engagement_efficiency" (colZip (fun x y => x * (1 - y)) e b)
    | _, _ => df5
  else df5

/-- Embeds `SEOFeatureEngineer._create_ratio_features`.  Each `np.where`
evaluates its division branch only where selected (the discarded IEEE
`inf`/`NaN` of the eager branch is unobservable); the `float('inf')` default
of `content_to_code_ratio` is immediately `.replace`d by 100 in the source
and is embedded as the direct default 100. -/
noncomputable def create_ratio_features (df0 : DataFrame) : DataFrame :=
  ratioStepEngagement (ratioStepContentCode (ratioStepAnchors
    (ratioStepAuthority (ratioStepDofollow (ratioStepImageAlt df0)))))

/-- Embeds `SEOFeatureEngineer._create_interaction_features`. -/
noncomputable def create_interaction_features (df0 : DataFrame) : DataFrame :=
  let df1 := if hasCols df0 ["content_quality_score", "total_backlinks"] then
      match getCol df0 "content_quality_score", getCol df0 "total_backlinks" with
      | some q, some b =>
          let dfa := setCol df0 "content_backlink_synergy"
            (colZip (fun x y => x * Real.log (1 + y)) q b)
          setCol dfa "content_backlink_product"
            (colZip (· * ·) (zscoreCol (fillnaNum q 0))
              (zscoreCol (colMap (fun y => Real.log (1 + y)) (fillnaNum b 0))))
      | _, _ => df0
    else df0
  let df2 := if hasCols df1 ["engagement_rate", "average_position"] then
      match getCol df1 "engagement_rate", getCol df1 "average_position" with
      | some e, some pos =>
          let weight : PdColumn :=
            ⟨PdType.float, pos.cells.map (mapNumV (fun p =>
              if p + 1 = 0 then PdValue.null else PdValue.num (1 / (p + 1))))⟩
          let dfa := setCol df1 "engagement_position_score" (colZip (· * ·) e weight)
          let med := rmedian (numCells e)
          setCol dfa "engagement_outperforms_position"
            ⟨PdType.float, List.zipWith (fun ev pv =>
              match ev, pv with
              | PdValue.num x, PdValue.num p =>
                  PdValue.num (if med < x ∧ 10 < p then 1 else 0)
              | _, _ => PdValue.num 0) e.cells pos.cells⟩
      | _, _ => df1
    else df1
  let df3 := if hasCols df2 ["mobile_responsive", "mobile_traffic_ratio"] then
      match getCol df2 "mobile_responsive", getCol df2 "mobile_traffic_ratio" with
      | some r, some t =>
          let dfa := setCol df2 "mobile_optimization_impact" (colZip (· * ·) r t)
          setCol dfa "mobile_penalty_risk"
            ⟨PdType.float, List.zipWith (fun rv tv =>
              match rv, tv with
              | PdValue.num x, PdValue.num y =>
                  PdValue.num (if x = 0 ∧ 1/2 < y then 1 else 0)
              | _, _ => PdValue.num 0) r.cells t.cells⟩
      | _, _ => df2
    else df2
  let df4 := if hasCols df3 ["technical_health_score", "content_quality_score"] then
      match getCol df3 "technical_health_score", getCol df3 "content_quality_score" with
      | some t, some q => setCol df3 "technical_content_synergy" (colZip (· * ·) t q)
      | _, _ => df3
    else df3
  let df5 := if hasCols df4 ["domain_authority", "content_age"] then
      match getCol df4 "domain_authority", getCol df4 "content_age" with
      | some a, some age =>
          let weight : PdColumn :=
            ⟨PdType.float, age.cells.map (mapNumV (fun x =>
              if Real.log (1 + x) + 1 = 0 then PdValue.null
              else PdValue.num (1 / (Real.log (1 + x) + 1))))⟩
          setCol df4 "authority_freshness_score" (colZip (· * ·) a weight)
      | _, _ => df4
    else df4
  let df6 := if hasCols df5 ["largest_contentful_paint", "engagement_rate"] then
      match getCol df5 "largest_contentful_paint", getCol df5 "engagement_rate" with
      | some lcp, some e =>
          let speed : PdColumn :=
            ⟨PdType.float, lcp.cells.map (mapNumV (fun x =>
              if x / 1000 + 1 = 0 then PdValue.null
              else PdValue.num (1 / (x / 1000 + 1))))⟩
          setCol df5 "speed_engagement_product" (colZip (· * ·) speed e)
      | _, _ => df5
    else df5
  let quality_signals := ["content_quality_score", "technical_health_score",
    "user_satisfaction_score", "composite_authority_score"]
  let available_signals := quality_signals.filter (hasCol df6)
  if 2 ≤ available_signals.length then
    let cols := available_signals.filterMap (getCol df6)
    let dfa := setCol df6 "comprehensive_quality_score" (rowMean cols)
    let variance := rowStd cols
    let dfb := setCol dfa "quality_variance" variance
    setCol dfb "quality_consistency"
      ⟨PdType.float, variance.cells.map (mapNumV (fun v =>
        if v + 1 = 0 then PdValue.null else PdValue.num (1 / (v + 1))))⟩
  else df6

/-- A total boolean order on cells used to embed `sort_values` keys
(`NaN` sorts last, numbers before strings between kinds). -/
noncomputable def pvLeb : PdValue → PdValue → Bool
  | PdValue.null, PdValue.null => true
  | PdValue.null, _ => false
  | _, PdValue.null => true
  | PdValue.num a, PdValue.num b => decide (a ≤ b)
  | PdValue.str a, PdValue.str b => decide (a ≤ b)
  | PdValue.num _, PdValue.str _ => true
  | PdValue.str _, PdValue.num _ => false

/-- Lexicographic order on (url, date) sort keys. -/
noncomputable def pvLexLe (a b : PdValue × PdValue) : Bool :=
  (!pvLeb b.1 a.1) || (pvLeb a.1 b.1 && pvLeb b.1 a.1 && pvLeb a.2 b.2)

/-- Reorder a column's rows by the given index list. -/
def colTake (c : PdColumn) (idxs : List ℕ) : PdColumn :=
  ⟨c.dtype, idxs.map (fun i => c.cells.getD i PdValue.null)⟩

/-- Reorder every column's rows by the given index list. -/
def dfReindex (df : DataFrame) (idxs : List ℕ) : DataFrame :=
  df.map (fun nc => (nc.1, colTake nc.2 idxs))

/-- Embeds `df.sort_values(['url', 'date'])` (tie order among equal keys is
implementation-defined in pandas' quicksort; here it is insertion-sort
order). -/
noncomputable def dfSortValuesUrlDate (df : DataFrame) : DataFrame :=
  match getCol df "url", getCol df "date" with
  | some u, some d =>
      let n := u.cells.length
      let key := fun i => (u.cells.getD i PdValue.null, d.cells.getD i PdValue.null)
      dfReindex df (List.insertionSort (fun i j => pvLexLe (key i) (key j) = true)
        (List.range n))
  | _, _ => df

/-- The group-prefix of row `i`: the earlier (and own) row indices sharing
row `i`'s `url`, in order.  Rows with a `NaN` url form no group. -/
def groupPrefix (urls : List PdValue) (i : ℕ) : Option (List ℕ) :=
  match urls.getD i PdValue.null with
  | PdValue.str u =>
      some ((List.range (i + 1)).filter (fun j =>
        match urls.getD j PdValue.null with
        | PdValue.str v => v = u
        | _ => false))
  | _ => none

/-- The numeric cell of a column at an index. -/
def cellNum (c : PdColumn) (i : ℕ) : Option ℝ :=
  match c.cells.getD i PdValue.null with
  | PdValue.num x => some x
  | _ => none

/-- `groupby('url')[metric].transform(rolling(w, min_periods=m).AGG)`: for
each row, the aggregation over the non-null values of the last `w` rows of
its url-group, `NaN` when fewer than `m` observations. -/
def rollingAgg (urls : List PdValue) (metric : PdColumn) (w m : ℕ)
    (f : List (ℕ × ℝ) → PdValue) : PdColumn :=
  ⟨PdType.float, (List.range urls.length).map (fun i =>
    match groupPrefix urls i with
    | none => PdValue.null
    | some idxs =>
        let win := idxs.drop (idxs.length - w)
        let vals := (win.enum.filterMap (fun ji =>
          (cellNum metric ji.2).map (fun x => (ji.1, x))))
        if vals.length < m then PdValue.null else f vals)⟩

/-- The least-squares slope of `calculate_trend` (`np.polyfit(..., 1)` over
the window's non-null points; the guarded failure cases return 0). -/
noncomputable def trendSlope (pts : List (ℕ × ℝ)) : ℝ :=
  if pts.length < 2 then 0
  else
    let n : ℝ := pts.length
    let sx : ℝ := (pts.map (fun p => (p.1 : ℝ))).sum
    let sy : ℝ := (pts.map (fun p => p.2)).sum
    let sxy : ℝ := (pts.map (fun p => (p.1 : ℝ) * p.2)).sum
    let sxx : ℝ := (pts.map (fun p => (p.1 : ℝ) ^ 2)).sum
    if n * sxx - sx ^ 2 = 0 then 0 else (n * sxy - sx * sy) / (n * sxx - sx ^ 2)

/-- `groupby('url')[metric].transform(pct_change(periods=p))`: the relative
change against the value `p` group-rows earlier (`NaN` when either endpoint
is missing or the base is 0; interior forward-filling of the deprecated
default `fill_method` is not modelled). -/
noncomputable def groupPctChange (urls : List PdValue) (metric : PdColumn) (p : ℕ) :
    PdColumn :=
  ⟨PdType.float, (List.range urls.length).map (fun i =>
    match groupPrefix urls i with
    | none => PdValue.null
    | some idxs =>
        let q := idxs.length - 1
        if idxs.length ≤ p then PdValue.null
        else
          match cellNum metric (idxs.getD q 0), cellNum metric (idxs.getD (q - p) 0) with
          | some a, some b => if b = 0 then PdValue.null else PdValue.num ((a - b) / b)
          | _, _ => PdValue.null)⟩

/-- The six derived columns the historical-trend loop adds for one metric. -/
noncomputable def addTrendCols (df : DataFrame) (urls : List PdValue)
    (metric : String) : DataFrame :=
  match getCol df metric with
  | none => df
  | some c =>
      let dfa := setCol df (metric ++ "_7d_ma")
        (rollingAgg urls c 7 1 (fun pts => PdValue.num (rmean (pts.map (fun p => p.2)))))
      let dfb := setCol dfa (metric ++ "_30d_ma")
        (rollingAgg urls c 30 1 (fun pts => PdValue.num (rmean (pts.map (fun p => p.2)))))
      let dfc := setCol dfb (metric ++ "_wow_change") (groupPctChange urls c 7)
      let dfd := setCol dfc (metric ++ "_mom_change") (groupPctChange urls c 30)
      let dfe := setCol dfd (metric ++ "_volatility")
        (rollingAgg urls c 30 7 (fun pts => PdValue.num (rstdS (pts.map (fun p => p.2)))))
      setCol dfe (metric ++ "_trend")
        (rollingAgg urls c 30 2 (fun pts => PdValue.num (trendSlope pts)))

/-- Embeds `SEOFeatureEngineer._create_temporal_features`. -/
noncomputable def create_temporal_features (df0 : DataFrame) : DataFrame :=
  let df1 :=
    if hasCols df0 ["publish_date", "crawl_timestamp"] then
      match getCol df0 "publish_date", getCol df0 "crawl_timestamp" with
      | some pub, some crawl =>
          let age : PdColumn := colZip
            (fun c p => ((Int.floor ((c - p) / 86400) : ℤ) : ℝ)) crawl pub
          let dfa := setCol df0 "content_age_days" age
          let dfb := setCol dfa "content_age_log"
            (colMap (fun x => Real.log (1 + x)) age)
          let labels := ["very_fresh", "fresh", "recent", "established", "aged"]
          let binned := pdCut age [0, 7, 30, 90, 365] true labels
          setCol dfb "content_freshness" binned ++ getDummies binned labels "freshness"
      | _, _ => df0
    else df0
  let df2 :=
    if hasCols df1 ["url", "date"] then
      let dfs := dfSortValuesUrlDate df1
      let urls := match getCol dfs "url" with
        | some u => u.cells
        | none => []
      ["traffic", "clicks", "impressions", "engagement_rate",
        "average_position", "bounce_rate"].foldl
        (fun df metric => addTrendCols df urls metric) dfs
    else df1
  let df3 :=
    match getCol df2 "crawl_timestamp" with
    | none => df2
    | some c =>
        let dfa := setCol df2 "is_weekend"
          ⟨PdType.float, c.cells.map (mapNumV (fun t =>
            let dw := ((Int.floor t).fdiv 86400 + 3).emod 7
            PdValue.num (if dw = 5 ∨ dw = 6 then 1 else 0)))⟩
        setCol dfa "is_holiday_season"
          ⟨PdType.float, c.cells.map (mapNumV (fun t =>
            let mo := (civilFromDays ((Int.floor t).fdiv 86400)).2.1
            PdValue.num (if mo = 11 ∨ mo = 12 then 1 else 0)))⟩
  if hasCols df3 ["backlinks_last_30_days", "total_backlinks"] then
    match getCol df3 "backlinks_last_30_days", getCol df3 "total_backlinks" with
    | some bl30, some total =>
        let dfa := setCol df3 "backlink_velocity"
          ⟨PdType.float, List.zipWith numDiv bl30.cells
            (colMap (fun x => x + 1) total).cells⟩
        match getCol dfa "backlinks_last_60_days" with
        | some bl60 => setCol dfa "backlink_acceleration" (colZip (· - ·) bl30 bl60)
        | none => setCol dfa "backlink_acceleration" (colMap (fun x => x - 0) bl30)
    | _, _ => df3
  else df3

/-- Non-empty whitespace-separated tokens (`str.split()`). -/
def pySplit (s : String) : List String :=
  (s.split Char.isWhitespace).filter (fun t => t ≠ "")

/-- Case-insensitive substring containment of any of the given literals
(the source's alternation regexes with `case=False`). -/
def containsAnyCI (s : String) (lits : List String) : Bool :=
  let lower := (s.toLower).toList
  lits.any (fun lit => lower.tails.any (fun t => (lit.toList).isPrefixOf t))

/-- Python's `str.title()`. -/
def pyTitle (s : String) : String :=
  let rec go (prevAlpha : Bool) : List Char → List Char
    | [] => []
    | c :: rest =>
        (if c.isAlpha then (if prevAlpha then c.toLower else c.toUpper) else c) ::
          go c.isAlpha rest
  ⟨go false s.toList⟩

/-- The number of maximal runs of characters satisfying `p`
(`str.count(r'[.!?]+')`-style regex counting). -/
def countRuns (p : Char → Bool) (l : List Char) : ℕ :=
  let rec go (inRun : Bool) : List Char → ℕ
    | [] => 0
    | c :: rest =>
        if p c then (if inRun then 0 else 1) + go true rest
        else go false rest
  go false l

/-- Non-overlapping occurrences of a fixed non-empty needle
(`str.count(r'\n\n')`). -/
def countSubstr (needle : List Char) (hay : List Char) : ℕ :=
  match hay with
  | [] => 0
  | c :: rest =>
      if needle.isPrefixOf (c :: rest) then
        1 + countSubstr needle (rest.drop (needle.length - 1))
      else countSubstr needle rest
termination_by hay.length
decreasing_by
  · simp only [List.length_cons, List.length_drop]
    omega
  · simp only [List.length_cons]
    omega

/-- The tokens of sklearn's default `token_pattern` after lowercasing:
maximal runs of word characters, keeping only runs of length ≥ 2. -/
def wordTokens (s : String) : List String :=
  let isWord := fun c : Char => c.isAlphanum || c = '_'
  let rec go (cur : List Char) : List Char → List (List Char)
    | [] => if cur.length ≥ 2 then [cur.reverse] else []
    | c :: rest =>
        if isWord c then go (c :: cur) rest
        else (if cur.length ≥ 2 then [cur.reverse] else []) ++ go [] rest
  (go [] s.toLower.toList).map (fun l => (⟨l⟩ : String))

/-- Unigrams and bigrams (`ngram_range=(1, 2)`), bigrams space-joined. -/
def ngrams12 (tokens : List String) : List String :=
  tokens ++ (tokens.zip tokens.tail).map (fun ab => ab.1 ++ " " ++ ab.2)

/-- The fitted state of the `TfidfVectorizer`: the alphabetically ordered
vocabulary and each term's smoothed idf. -/
structure TfidfModel where
  vocabulary : List String
  idf : List ℝ

/-- Fits `TfidfVectorizer(max_features=100, ngram_range=(1, 2))`: vocabulary
capped at the 100 terms of highest corpus frequency (sklearn's tie order is
unspecified; embedded as alphabetical), then ordered alphabetically; smoothed
idf `ln((1+n)/(1+df)) + 1`. -/
noncomputable def tfidfFit (docs : List String) : TfidfModel :=
  let grams := docs.map (fun d => ngrams12 (wordTokens d))
  let terms := grams.flatten.dedup
  let tf : String → ℕ := fun t => (grams.map (fun g => g.count t)).sum
  let selected :=
    if terms.length ≤ 100 then terms
    else ((List.insertionSort (fun a b =>
      (decide (tf b < tf a) || (decide (tf a = tf b) && decide (a ≤ b))) = true)
      terms).take 100)
  let vocab := List.insertionSort (· ≤ ·) selected
  let n := docs.length
  let docFreq : String → ℕ := fun t => (grams.filter (fun g => t ∈ g)).length
  { vocabulary := vocab
    idf := vocab.map (fun t =>
      Real.log (((1 + n : ℕ) : ℝ) / ((1 + docFreq t : ℕ) : ℝ)) + 1) }

/-- `TfidfVectorizer.transform`: term counts times idf, rows l2-normalised
(zero rows left as zeros). -/
noncomputable def tfidfTransform (m : TfidfModel) (docs : List String) :
    List (List ℝ) :=
  docs.map (fun d =>
    let g := ngrams12 (wordTokens d)
    let raw := (m.vocabulary.zip m.idf).map (fun ti => (g.count ti.1 : ℝ) * ti.2)
    let norm := Real.sqrt ((raw.map (fun x => x ^ 2)).sum)
    if norm = 0 then raw else raw.map (fun x => x / norm))

/-- The `' '.join` of the row's text fields (`fillna('')`). -/
def combinedTextRows (df : DataFrame) (text_features : List String) : List String :=
  let cols := text_features.filterMap (getCol df)
  let n := (cols.headD ⟨PdType.text, []⟩).cells.length
  (List.range n).map (fun i =>
    String.intercalate " " (cols.map (fun c =>
      match c.cells.getD i PdValue.null with
      | PdValue.str s => s
      | _ => "")))

/-- Appends the dense tf-idf matrix as `tfidf_i` columns. -/
def appendTfidf (df : DataFrame) (matrix : List (List ℝ)) (width : ℕ) : DataFrame :=
  df ++ (List.range width).map (fun j =>
    ("tfidf_" ++ toString j,
     (⟨PdType.float, matrix.map (fun row => PdValue.num (row.getD j 0))⟩ : PdColumn)))

/-- The per-field text-statistics blocks of `_create_text_features`
(everything before the TF-IDF fit/transform), returning the augmented frame
and the accumulated `text_features` list. -/
noncomputable def textStepFrame (df0 : DataFrame) : DataFrame × List String :=
  let power_words := ["best", "top", "guide", "how", "why", "tips", "tricks",
    "secrets", "amazing", "powerful"]
  let positive_words := ["best", "great", "excellent", "amazing", "perfect",
    "wonderful", "fantastic"]
  let cta_words := ["learn", "discover", "find", "get", "shop", "buy", "read",
    "click", "visit"]
  let step1 : DataFrame × List String :=
    match getCol df0 "title_tag" with
    | none => (df0, [])
    | some c =>
        let dfa := setCol df0 "title_word_count"
          ⟨PdType.float, c.cells.map (mapStr (fun s => PdValue.num (pySplit s).length))⟩
        let dfb := setCol dfa "title_char_count"
          ⟨PdType.float, c.cells.map (mapStr (fun s => PdValue.num s.length))⟩
        let dfc := setCol dfb "title_has_number"
          ⟨PdType.float, c.cells.map (mapStr (fun s =>
            PdValue.num (if s.toList.any Char.isDigit then 1 else 0)))⟩
        let dfd := setCol dfc "title_has_question"
          ⟨PdType.float, c.cells.map (mapStr (fun s =>
            PdValue.num (if s.toList.any (fun ch => ch = '?') then 1 else 0)))⟩
        let dfe := setCol dfd "title_has_power_word"
          ⟨PdType.float, c.cells.map (mapStr (fun s =>
            PdValue.num (if containsAnyCI s power_words then 1 else 0)))⟩
        let dff := setCol dfe "title_is_title_case"
          ⟨PdType.float, c.cells.map (fun v =>
            match v with
            | PdValue.str s => PdValue.num (if s = pyTitle s then 1 else 0)
            | _ => PdValue.num 0)⟩
        let dfg := setCol dff "title_positive_sentiment"
          ⟨PdType.float, c.cells.map (mapStr (fun s =>
            PdValue.num (if containsAnyCI s positive_words then 1 else 0)))⟩
        (dfg, ["title_tag"])
  let step2 : DataFrame × List String :=
    match getCol step1.1 "meta_description" with
    | none => step1
    | some c =>
        let dfa := setCol step1.1 "meta_word_count"
          ⟨PdType.float, c.cells.map (mapStr (fun s => PdValue.num (pySplit s).length))⟩
        let dfb := setCol dfa "meta_char_count"
          ⟨PdType.float, c.cells.map (mapStr (fun s => PdValue.num s.length))⟩
        let dfc := setCol dfb "meta_has_cta"
          ⟨PdType.float, c.cells.map (mapStr (fun s =>
            PdValue.num (if containsAnyCI s cta_words then 1 else 0)))⟩
        (dfc, step1.2 ++ ["meta_description"])
  let step3 : DataFrame × List String :=
    match getCol step2.1 "content" with
    | none => step2
    | some c =>
        let wordCount : PdColumn :=
          ⟨PdType.float, c.cells.map (mapStr (fun s => PdValue.num (pySplit s).length))⟩
        let sentCount : PdColumn :=
          ⟨PdType.float, c.cells.map (mapStr (fun s =>
            PdValue.num (countRuns (fun ch => ch = '.' ∨ ch = '!' ∨ ch = '?') s.toList)))⟩
        let dfa := setCol step2.1 "content_word_count" wordCount
        let dfb := setCol dfa "content_sentence_count" sentCount
        let dfc := setCol dfb "content_paragraph_count"
          ⟨PdType.float, c.cells.map (mapStr (fun s =>
            PdValue.num (countSubstr ['\n', '\n'] s.toList + 1)))⟩
        let dfd := setCol dfc "avg_sentence_length"
          (whereGtZero sentCount (colDiv wordCount sentCount) 0)
        let qCount : PdColumn :=
          ⟨PdType.float, c.cells.map (mapStr (fun s =>
            PdValue.num (countChar s '?')))⟩
        let dfe := setCol dfd "question_density"
          (whereGtZero wordCount (colMap (fun x => x * 1000) (colDiv qCount wordCount)) 0)
        (dfe, step2.2 ++ ["content"])
  step3

/-- Embeds `SEOFeatureEngineer._create_text_features` (the `fit` flag selects
`fit_transform` versus `transform` with the stored vectorizer; transforming
before any fit is sklearn's `NotFittedError`). -/
noncomputable def create_text_features (df0 : DataFrame) (fit : Bool)
    (tfidfSt : Option TfidfModel) : Except String (DataFrame × Option TfidfModel) :=
  let df := (textStepFrame df0).1
  let text_features := (textStepFrame df0).2
  if text_features ≠ [] ∧ fit = true then
    let combined := combinedTextRows df text_features
    let m := tfidfFit combined
    Except.ok (appendTfidf df (tfidfTransform m combined) m.vocabulary.length, some m)
  else if text_features ≠ [] ∧ fit = false then
    match tfidfSt with
    | none => Except.error "TfidfVectorizer instance is not fitted yet"
    | some m =>
        let combined := combinedTextRows df text_features
        Except.ok (appendTfidf df (tfidfTransform m combined) m.vocabulary.length, some m)
  else Except.ok (df, tfidfSt)

/-- `sum(comp * weight for comp, weight in zip(...))`: the cellwise weighted
sum of several columns (`0 +` then pandas `+`, so any null propagates). -/
def weightedSumCols (comps : List (PdColumn × ℚ)) : PdColumn :=
  let n := (comps.headD (⟨PdType.float, []⟩, 0)).1.cells.length
  ⟨PdType.float, (List.range n).map (fun i =>
    comps.foldl (fun acc cw =>
      num2 (· + ·) acc (mapNum (fun x => x * (cw.2 : ℝ)) (cw.1.cells.getD i PdValue.null)))
      (PdValue.num 0))⟩

/-- `Series.max()` over non-null values (0 stands for the empty NaN, guarded
by callers). -/
def rmaxOf (l : List ℝ) : ℝ := l.foldl max (l.headD 0)

/-- Embeds `SEOFeatureEngineer._create_composite_scores`. -/
noncomputable def create_composite_scores (df0 : DataFrame) : DataFrame :=
  -- technical health composite
  let tech_components : List (String × ℚ) :=
    [("https_enabled", 1), ("mobile_responsive", 1), ("lcp_good", 1), ("inp_good", 1),
     ("cls_good", 1), ("no_broken_internal_links", 1), ("canonical_tag_correct", 1/2),
     ("sitemap_present", 1/2)]
  let tech_pairs : List (PdColumn × ℚ) := tech_components.filterMap (fun cw =>
    match getCol df0 cw.1 with
    | some c => some (c, cw.2)
    | none =>
        if cw.1 = "no_broken_internal_links" then
          match getCol df0 "broken_internal_links" with
          | some b => some (⟨PdType.float, b.cells.map (mapNumV (fun x =>
              PdValue.num (if x = 0 then 1 else 0)))⟩, cw.2)
          | none => none
        else none)
  let df1 :=
    if tech_pairs.length ≠ 0 then
      let total : ℚ := (tech_pairs.map (fun p => p.2)).sum
      setCol df0 "technical_health_composite"
        (weightedSumCols (tech_pairs.map (fun p => (p.1, p.2 / total))))
    else df0
  -- authority composite
  let authority_components := ["domain_authority", "domain_rating", "trust_flow",
    "citation_flow"]
  let available_authority := authority_components.filter (hasCol df1)
  let df2 :=
    if 2 ≤ available_authority.length then
      let dfa := available_authority.foldl (fun df col =>
        match getCol df1 col with
        | some c =>
            setCol df (col ++ "_zscore")
              (if 0 < rstdS (numCells c) then
                zscoreCol (fillnaNum c (rmedian (numCells c)))
              else ⟨PdType.float, c.cells.map (fun _ => PdValue.num 0)⟩)
        | none => df) df1
      let zcols := (available_authority.map (fun col => col ++ "_zscore")).filterMap
        (getCol dfa)
      let dfb := setCol dfa "authority_composite_enhanced" (rowMean zcols)
      setCol dfb "authority_consistency"
        ⟨PdType.float, (rowStd zcols).cells.map (mapNumV (fun v =>
          if v + 1 = 0 then PdValue.null else PdValue.num (1 / (v + 1))))⟩
    else df1
  -- user satisfaction composite
  let satisfaction_components : List (String × ℚ) :=
    [("engagement_rate", 1), ("low_bounce_rate", 1), ("dwell_time", 4/5),
     ("pages_per_session", 3/5), ("return_visitor_rate", 4/5), ("low_pogosticking_rate", 1)]
  let sat_pairs : List (PdColumn × ℚ) := satisfaction_components.filterMap (fun cw =>
    match getCol df2 cw.1 with
    | some c => some (zscoreCol (fillnaNum c (rmedian (numCells c))), cw.2)
    | none =>
        if cw.1 = "low_bounce_rate" then
          match getCol df2 "bounce_rate" with
          | some b => some (zscoreCol (colMap (fun x => 1 - x)
              (fillnaNum b (rmedian (numCells b)))), cw.2)
          | none => none
        else if cw.1 = "low_pogosticking_rate" then
          match getCol df2 "pogosticking_rate" with
          | some b => some (zscoreCol (colMap (fun x => 1 - x)
              (fillnaNum b (rmedian (numCells b)))), cw.2)
          | none => none
        else none)
  let df3 :=
    if sat_pairs.length ≠ 0 then
      let total : ℚ := (sat_pairs.map (fun p => p.2)).sum
      setCol df2 "user_satisfaction_composite"
        (weightedSumCols (sat_pairs.map (fun p => (p.1, p.2 / total))))
    else df2
  -- E-E-A-T composite
  let eeat_components : List (String × ℚ) :=
    [("author_byline_present", 1/2), ("author_bio_present", 1/2),
     ("author_expertise_signals", 1), ("content_depth", 1), ("citation_count", 4/5),
     ("external_reference_quality", 1), ("domain_authority", 1), ("trust_flow", 1)]
  let eeat_pairs : List (PdColumn × ℚ) := eeat_components.filterMap (fun cw =>
    match getCol df3 cw.1 with
    | none => none
    | some c =>
        if cw.1 = "content_depth" ∧ hasCol df3 "content_length" then
          match getCol df3 "content_length" with
          | some len => some (colMap (fun x => min (x / 5000) 1) len, cw.2)
          | none => none
        else
          let vals := numCells c
          if vals.length ≠ 0 ∧ 1 < rmaxOf vals then
            some (colMap (fun x => x / rmaxOf vals) c, cw.2)
          else some (c, cw.2))
  let eeat_weight_sum : ℚ := (eeat_pairs.map (fun p => p.2)).sum
  let df4 :=
    if 0 < eeat_weight_sum then
      setCol df3 "eeat_composite_score"
        (colMap (fun x => x / (eeat_weight_sum : ℝ)) (weightedSumCols eeat_pairs))
    else df3
  -- overall quality meta-composite
  let quality_composites := ["technical_health_composite", "authority_composite_enhanced",
    "user_satisfaction_composite", "eeat_composite_score", "content_quality_score"]
  let available_composites := quality_composites.filter (hasCol df4)
  if 3 ≤ available_composites.length then
    let cols := available_composites.filterMap (getCol df4)
    let dfa := setCol df4 "overall_quality_score" (rowMean cols)
    setCol dfa "quality_balance_score"
      ⟨PdType.float, (rowStd cols).cells.map (mapNumV (fun v =>
        if v + 1/10 = 0 then PdValue.null else PdValue.num (1 / (v + 1/10))))⟩
  else df4

/-- `scipy.stats.skew` of the non-null values (biased, `m3 / m2^1.5`). -/
noncomputable def rskew (l : List ℝ) : ℝ :=
  let m := rmean l
  let m2 := (l.map (fun x => (x - m) ^ 2)).sum / (l.length : ℝ)
  let m3 := (l.map (fun x => (x - m) ^ 3)).sum / (l.length : ℝ)
  m3 / (m2 * Real.sqrt m2)

/-- Embeds `SEOFeatureEngineer._log_transform_features`: a `log1p` twin column
for each skewed candidate (`|skew| > 1`; the NaN skew of an empty or constant
column compares false). -/
noncomputable def log_transform_features (df0 : DataFrame) : DataFrame :=
  ["total_backlinks", "referring_domains", "content_length", "page_size",
   "javascript_size", "css_size", "image_size", "impressions", "clicks", "traffic",
   "dwell_time", "largest_contentful_paint", "time_to_first_byte",
   "backlinks_last_30_days", "content_age_days"].foldl (fun df feature =>
    match getCol df feature with
    | none => df
    | some c =>
        let vals := numCells c
        if vals.length ≠ 0 ∧ rvarP vals ≠ 0 ∧ 1 < |rskew vals| then
          setCol df (feature ++ "_log") (colMap (fun x => Real.log (1 + x)) c)
        else df) df0

/-- Embeds `SEOFeatureEngineer._handle_missing_values`: numeric nulls filled
with 0 for count-like names and the column median otherwise (an all-null
column stays null: its median is NaN); categorical nulls become `'unknown'`;
boolean nulls become `False`. -/
noncomputable def handle_missing_values (df0 : DataFrame) : DataFrame :=
  df0.map (fun nc =>
    let name := nc.1
    let c := nc.2
    match c.dtype with
    | PdType.float =>
        if hasNull c then
          if ["count", "total", "number"].any (fun kw =>
              name.toList.tails.any (fun t => kw.toList.isPrefixOf t)) then
            (name, fillnaNum c 0)
          else
            if (numCells c).length = 0 then (name, c)
            else (name, fillnaNum c (rmedian (numCells c)))
        else (name, c)
    | PdType.text =>
        (name, ⟨c.dtype, c.cells.map (fun v =>
          match v with
          | PdValue.null => PdValue.str "unknown"
          | other => other)⟩)
    | PdType.cat =>
        (name, ⟨c.dtype, c.cells.map (fun v =>
          match v with
          | PdValue.null => PdValue.str "unknown"
          | other => other)⟩)
    | PdType.boolean => (name, fillnaNum c 0))

/-- The names of the `select_dtypes(include=[np.number])` columns, in order. -/
def numericNames (df : DataFrame) : List String :=
  (df.filter (fun nc => nc.2.dtype = PdType.float)).map (fun nc => nc.1)

/-- Whether any numeric column holds a null (sklearn scalers reject NaN). -/
def hasNaNNumeric (df : DataFrame) : Bool :=
  (df.filter (fun nc => nc.2.dtype = PdType.float)).any (fun nc => hasNull nc.2)

/-- The `scaler_type` of the `SEOFeatureEngineer` constructor. -/
inductive ScalerType where
  | standard
  | robust
  | noScaler
deriving DecidableEq

/-- Linear-interpolation quantile (`np.percentile` default) at `num/den`. -/
noncomputable def rquantile (l : List ℝ) (num den : ℕ) : ℝ :=
  let sorted := List.insertionSort (· ≤ ·) l
  let h : ℚ := ((l.length - 1 : ℕ) : ℚ) * num / den
  let lo : ℕ := ⌊h⌋.toNat
  let frac : ℝ := ((h - ⌊h⌋ : ℚ) : ℝ)
  sorted.getD lo 0 + frac * (sorted.getD (lo + 1) 0 - sorted.getD lo 0)

/-- The per-column (center, scale) a scaler fit stores; zero dispersion is
replaced by scale 1 (`_handle_zeros_in_scale`). -/
noncomputable def scalerColumnStats (kind : ScalerType) (c : PdColumn) : ℝ × ℝ :=
  let vals := numCells c
  match kind with
  | ScalerType.robust =>
      let iqr := rquantile vals 3 4 - rquantile vals 1 4
      (rmedian vals, if iqr = 0 then 1 else iqr)
  | _ =>
      let v := rvarP vals
      (rmean vals, if v = 0 then 1 else Real.sqrt v)

/-- `scaler.fit` over the numeric columns; NaN input raises. -/
noncomputable def scalerFit (kind : ScalerType) (df : DataFrame) :
    Except String (List (String × ℝ × ℝ)) :=
  if hasNaNNumeric df then Except.error "Input contains NaN"
  else Except.ok ((df.filter (fun nc => nc.2.dtype = PdType.float)).map (fun nc =>
    (nc.1, scalerColumnStats kind nc.2)))

/-- Applies stored (center, scale) statistics to the numeric columns. -/
noncomputable def scalerApply (stats : List (String × ℝ × ℝ)) (df : DataFrame) :
    DataFrame :=
  df.map (fun nc =>
    if nc.2.dtype = PdType.float then
      match stats.lookup nc.1 with
      | some cs => (nc.1, colMap (fun x => (x - cs.1) / cs.2) nc.2)
      | none => nc
    else nc)

/-- The constructor flags of `SEOFeatureEngineer`. -/
structure EngineerConfig where
  scaler_type : ScalerType
  create_interactions : Bool
  create_temporal : Bool
  create_ratios : Bool
  create_text : Bool

/-- The fitted state an `SEOFeatureEngineer` instance carries between calls
(`self.scaler`'s statistics and `self.tfidf_vectorizer`'s fit). -/
structure EngineerState where
  scalerStats : Option (List (String × ℝ × ℝ))
  tfidfState : Option TfidfModel

/-- The deterministic pipeline prefix of `engineer_features` before the text
step: basic, ratio, interaction and temporal features under the instance
flags. -/
noncomputable def preTextFrame (cfg : EngineerConfig) (df : DataFrame) : DataFrame :=
  let df1 := create_basic_features df
  let df2 := if cfg.create_ratios then create_ratio_features df1 else df1
  let df3 := if cfg.create_interactions then create_interaction_features df2 else df2
  if cfg.create_temporal then create_temporal_features df3 else df3

/-- The deterministic pipeline suffix of `engineer_features` between the text
step and the scaler: composites, skew correction, missing values. -/
noncomputable def postTextFrame (df5 : DataFrame) : DataFrame :=
  handle_missing_values (log_transform_features (create_composite_scores df5))

/-- The scaling tail of `engineer_features`: in fit mode compute and store the
scaler statistics, in transform mode validate and reuse the stored ones. -/
noncomputable def scalePhase (kind : ScalerType) (fit : Bool)
    (prevStats : Option (List (String × ℝ × ℝ))) (df8 : DataFrame)
    (tfSt : Option TfidfModel) : Except String (DataFrame × EngineerState) :=
  match kind with
  | ScalerType.noScaler => Except.ok (df8, ⟨prevStats, tfSt⟩)
  | k =>
      if fit then
        match scalerFit k df8 with
        | Except.error e => Except.error e
        | Except.ok stats => Except.ok (scalerApply stats df8, ⟨some stats, tfSt⟩)
      else
        match prevStats with
        | none => Except.error "Scaler instance is not fitted yet"
        | some stats =>
            if (stats.map Prod.fst) = numericNames df8 then
              if hasNaNNumeric df8 then Except.error "Input contains NaN"
              else Except.ok (scalerApply stats df8, ⟨some stats, tfSt⟩)
            else Except.error "feature names mismatch"

/-- Embeds `SEOFeatureEngineer.engineer_features(df, fit)`: the fixed step
chain, with the text step and the final scaling step reading or writing the
instance state according to `fit`. -/
noncomputable def engineer_features (cfg : EngineerConfig) (df : DataFrame)
    (fit : Bool) (st : EngineerState) : Except String (DataFrame × EngineerState) :=
  match (if cfg.create_text then create_text_features (preTextFrame cfg df) fit st.tfidfState
         else Except.ok (preTextFrame cfg df, st.tfidfState)) with
  | Except.error e => Except.error e
  | Except.ok (df5, tfSt) =>
      scalePhase cfg.scaler_type fit st.scalerStats (postTextFrame df5) tfSt

/-! ## Theorems and supporting lemmas -/

theorem lookupThreshold_mem {name : String} {l : List (String × ThresholdConfig)}
    {cfg : ThresholdConfig} (h : lookupThreshold name l = some cfg) : (name, cfg) ∈ l := by
  induction l with
  | nil => simp [lookupThreshold] at h
  | cons p rest ih =>
      obtain ⟨n, c⟩ := p
      by_cases hn : n = name
      · subst hn
        simp [lookupThreshold] at h
        simp [h]
      · simp [lookupThreshold, hn] at h
        exact List.mem_cons_of_mem _ (ih h)

theorem catalog_inverse_max_good_pos :
    ∀ p ∈ get_all_thresholds, p.2.inverse = true → (0 : ℚ) < p.2.max_good := by decide

theorem catalog_min_good_le_min_excellent :
    ∀ p ∈ get_all_thresholds, p.2.inverse = false → p.2.min_good ≤ p.2.min_excellent := by decide

theorem div_mem_unit (a d : ℚ) (hd : 0 < d) (h0 : 0 ≤ a) (h1 : a ≤ d) : 0 ≤ a / d ∧ a / d ≤ 1 :=
  ⟨div_nonneg h0 hd.le, (div_le_one hd).2 h1⟩

theorem evaluate_with_config_isSome (config : ThresholdConfig) (value : ℚ)
    (h : config.inverse = true → config.max_good ≠ 0) :
    (evaluate_with_config config value).isSome := by
  unfold evaluate_with_config
  split_ifs with h1 h2 h3 h4 h5 h6 h7 h8 h9 h10 h11 h12 h13 h14 h15 h16 <;> try simp
  · push_neg at h2; linarith
  · push_neg at h2 h3; linarith
  · push_neg at h2 h3 h5; linarith
  · exact absurd h9 (h h1)
  · linarith [h11.1]
  · rcases not_and_or.mp h10 with hA | hB
    · push_neg at h12; exact hA h12
    · push_neg at hB; linarith [h11.2]
  · linarith [h15.1, h15.2]

theorem evaluate_with_config_bounds (config : ThresholdConfig) (value : ℚ)
    (hmax : config.inverse = true → 0 < config.max_good)
    (hcase : config.inverse = true ∨ value ≤ config.max_good) :
    ∃ q s, evaluate_with_config config value = some (q, s) ∧ 0 ≤ s ∧ s ≤ 1 := by
  unfold evaluate_with_config
  split_ifs with h1 h2 h3 h4 h5 h6 h7 h8 h9 h10 h11 h12 h13 h14 h15 h16 h17
  · exact ⟨_, _, rfl, by norm_num⟩
  · push_neg at h2; exact absurd h4 (by intro hz; linarith)
  · push_neg at h2
    obtain ⟨hr0, hr1⟩ := div_mem_unit (value - config.min_excellent)
      (config.max_excellent - config.min_excellent) (by linarith) (by linarith) (by linarith)
    exact ⟨_, _, rfl, by constructor <;> linarith⟩
  · push_neg at h2 h3; exact absurd h6 (by intro hz; linarith)
  · push_neg at h2 h3
    obtain ⟨hr0, hr1⟩ := div_mem_unit (value - config.max_excellent)
      (config.min_good - config.max_excellent) (by linarith) (by linarith) (by linarith)
    exact ⟨_, _, rfl, by constructor <;> linarith⟩
  · push_neg at h2 h3 h5; exact absurd h8 (by intro hz; linarith)
  · push_neg at h2 h3 h5
    obtain ⟨hr0, hr1⟩ := div_mem_unit (value - config.min_good)
      (config.max_good - config.min_good) (by linarith) (by linarith) (by linarith)
    exact ⟨_, _, rfl, by constructor <;> linarith⟩
  · exact absurd h9 (by intro hz; have := hmax h1; linarith)
  · push_neg at h2 h3 h5 h7
    have hg : 0 < config.max_good := hmax h1
    have hr : 0 < (value - config.max_good) / config.max_good :=
      div_pos (by linarith) hg
    refine ⟨_, _, rfl, le_trans (by norm_num) (le_max_left _ _), max_le (by norm_num) ?_⟩
    linarith
  · exact ⟨_, _, rfl, by norm_num⟩
  · exact absurd h13 (by intro hz; linarith [h11.1])
  · obtain ⟨hg1, hg2⟩ := h11
    obtain ⟨hr0, hr1⟩ := div_mem_unit (value - config.min_good)
      (config.min_excellent - config.min_good) (by linarith) (by linarith) (by linarith)
    rw [mul_div_assoc]
    exact ⟨_, _, rfl, by constructor <;> linarith⟩
  · push_neg at h12
    rcases not_and_or.mp h10 with hA | hB
    · exact absurd h12 hA
    · push_neg at hB; exact absurd h14 (by intro hz; linarith [h11.2])
  · push_neg at h12
    obtain ⟨hg1, hg2⟩ := h11
    have hxe : config.max_excellent < value := by
      rcases not_and_or.mp h10 with hA | hB
      · exact absurd h12 hA
      · push_neg at hB; exact hB
    obtain ⟨hr0, hr1⟩ := div_mem_unit (value - config.max_excellent)
      (config.max_good - config.max_excellent) (by linarith) (by linarith) (by linarith)
    exact ⟨_, _, rfl, by constructor <;> linarith⟩
  · exact absurd h16 (by intro hz; linarith [h15.1, h15.2])
  · obtain ⟨hf1, hf2⟩ := h15
    obtain ⟨hr0, hr1⟩ := div_mem_unit (value - config.min_good * (1/2))
      (config.min_good * (1/2)) (by linarith) (by linarith) (by linarith)
    rw [mul_div_assoc]
    exact ⟨_, _, rfl, by constructor <;> linarith⟩
  · rcases hcase with hL | hv
    · exact absurd hL h1
    · have hvm : value < config.min_good := by
        rcases not_and_or.mp h11 with hA | hB
        · push_neg at hA; exact hA
        · exact absurd hv (by push_neg at hB ⊢; exact absurd hB (not_lt.mpr hv))
      have hvf : value < config.min_good * (1/2) := by
        rcases not_and_or.mp h15 with hA | hB
        · push_neg at hA; exact hA
        · exact absurd hvm hB
      have ht : value / (config.min_good * (1/2)) < 1 :=
        (div_lt_one (by linarith)).2 (by linarith)
      refine ⟨_, _, rfl, le_trans (by norm_num) (le_max_left _ _), max_le (by norm_num) ?_⟩
      linarith
  · exact ⟨_, _, rfl, le_trans (by norm_num) (le_max_left _ _), max_le (by norm_num) (by norm_num)⟩

theorem evaluate_with_config_poor_floor (config : ThresholdConfig) (value : ℚ)
    (hninv : config.inverse = false) (h0 : 0 ≤ config.min_good)
    (hme : config.min_good ≤ config.min_excellent)
    (hv : value < config.min_good * (1/2)) :
    ∃ s, evaluate_with_config config value = some (DataQuality.poor, s) ∧ 1/10 ≤ s := by
  unfold evaluate_with_config
  rw [hninv]
  simp only [Bool.false_eq_true, if_false]
  rw [if_neg (by push_neg; intro hE; exact absurd hE (by linarith)),
      if_neg (by push_neg; intro hG; exact absurd hG (by linarith)),
      if_neg (by push_neg; intro hF; exact absurd hF (by linarith))]
  exact ⟨_, rfl, le_max_left _ _⟩

/-- C10: every evaluation of a shipped-catalog feature terminates without a
division by zero: each interpolation branch with a potentially-zero divisor is
unreachable under its guard, and the inverse Poor branch's divisor `max_good`
is positive for every inverse entry of the catalog. -/
theorem evaluate_feature_total_on_catalog (name : String) (config : ThresholdConfig) (value : ℚ)
    (hlk : lookupThreshold name get_all_thresholds = some config) :
    (evaluate_feature name value get_all_thresholds).isSome := by
  unfold evaluate_feature
  rw [hlk]
  exact evaluate_with_config_isSome config value
    (fun hinv => ne_of_gt (catalog_inverse_max_good_pos _ (lookupThreshold_mem hlk) hinv))

/-- C10 witness: the catalog's `lcp_score` entry evaluates successfully. -/
theorem evaluate_feature_total_on_catalog_witness :
    (evaluate_feature "lcp_score" 3 get_all_thresholds).isSome :=
  evaluate_feature_total_on_catalog "lcp_score"
    ⟨FeatureCategory.coreWebVitals, 0, mkRat 5 2, 0, mkRat 9 5, 2, true⟩ 3 (by decide)

/-- C1 counterexample: `title_tag_length` (min_good 30, max_good 70) at value 80
falls into the non-inverse Poor branch, whose extrapolation `0.5·(value/(0.5·min_good))`
yields 8/3 > 1 — the returned score is not in [0,1]. -/
theorem evaluate_feature_score_above_one :
    evaluate_feature "title_tag_length" 80 get_all_thresholds =
      some (DataQuality.poor, 8/3) ∧ ¬ ((8 : ℚ)/3 ≤ 1) := by
  constructor
  · norm_num [evaluate_feature, lookupThreshold, get_all_thresholds, thresholdsChunk0,
      evaluate_with_config]
  · norm_num

/-- C1 (amended): for every catalog entry, the score is in [0,1] whenever the
feature is inverse or the value is at most `max_good`; and for a non-inverse
entry with `min_good ≥ 0`, a value below the Fair band (`value < 0.5·min_good`)
yields tier Poor with the score floored at 0.1. -/
theorem evaluate_feature_bounds_amended (name : String) (config : ThresholdConfig) (value : ℚ)
    (hlk : lookupThreshold name get_all_thresholds = some config) :
    ((config.inverse = true ∨ value ≤ config.max_good) →
      ∃ q s, evaluate_feature name value get_all_thresholds = some (q, s) ∧ 0 ≤ s ∧ s ≤ 1) ∧
    (config.inverse = false → 0 ≤ config.min_good → value < config.min_good * (1/2) →
      ∃ s, evaluate_feature name value get_all_thresholds = some (DataQuality.poor, s) ∧
        1/10 ≤ s) := by
  have hmem := lookupThreshold_mem hlk
  unfold evaluate_feature
  rw [hlk]
  exact ⟨fun hc => evaluate_with_config_bounds config value
          (fun hi => catalog_inverse_max_good_pos _ hmem hi) hc,
        fun hninv h0 hv => evaluate_with_config_poor_floor config value hninv h0
          (catalog_min_good_le_min_excellent _ hmem hninv) hv⟩

/-- C1 witness: the amended statement applied to `title_tag_length` at value 10. -/
theorem evaluate_feature_bounds_amended_witness :
    (((⟨FeatureCategory.onPage, 30, 70, 50, 60, mkRat 3 2, false⟩ : ThresholdConfig).inverse = true ∨
        (10 : ℚ) ≤ (⟨FeatureCategory.onPage, 30, 70, 50, 60, mkRat 3 2, false⟩ : ThresholdConfig).max_good) →
      ∃ q s, evaluate_feature "title_tag_length" 10 get_all_thresholds = some (q, s) ∧
        0 ≤ s ∧ s ≤ 1) ∧
    ((⟨FeatureCategory.onPage, 30, 70, 50, 60, mkRat 3 2, false⟩ : ThresholdConfig).inverse = false →
      0 ≤ (⟨FeatureCategory.onPage, 30, 70, 50, 60, mkRat 3 2, false⟩ : ThresholdConfig).min_good →
      (10 : ℚ) < (⟨FeatureCategory.onPage, 30, 70, 50, 60, mkRat 3 2, false⟩ : ThresholdConfig).min_good * (1/2) →
      ∃ s, evaluate_feature "title_tag_length" 10 get_all_thresholds =
        some (DataQuality.poor, s) ∧ 1/10 ≤ s) :=
  evaluate_feature_bounds_amended "title_tag_length"
    ⟨FeatureCategory.onPage, 30, 70, 50, 60, mkRat 3 2, false⟩ 10 (by decide)

theorem qualityLoop_filter (th : List (String × ThresholdConfig))
    (features : List (String × ℚ)) (acc : QualityAccum) :
    qualityLoop th (features.filter fun p => (lookupThreshold p.1 th).isSome) acc =
      qualityLoop th features acc := by
  induction features generalizing acc with
  | nil => rfl
  | cons p rest ih =>
      obtain ⟨name, v⟩ := p
      cases hlk : lookupThreshold name th with
      | none =>
          simp only [List.filter_cons, hlk, Option.isSome_none, if_neg, Bool.false_eq_true,
            not_false_eq_true]
          rw [ih]
          show _ = qualityLoop th ((name, v) :: rest) acc
          conv_rhs => unfold qualityLoop
          rw [hlk]
      | some cfg =>
          simp only [List.filter_cons, hlk, Option.isSome_some, if_pos]
          show qualityLoop th ((name, v) :: List.filter _ rest) acc = _
          cases hev : evaluate_with_config cfg v with
          | none => unfold qualityLoop; rw [hlk]; simp [hev]
          | some qs =>
              obtain ⟨q, s⟩ := qs
              unfold qualityLoop
              rw [hlk]
              simp only [hev]
              exact ih _

/-- C9: `calculate_overall_quality` ignores features absent from the threshold
table — records agreeing on their threshold-known features produce identical
reports — and a record sharing no name with the table yields the empty report
with overall score 0 and quality Poor. -/
theorem calculate_overall_quality_ignores_unknown :
    (∀ (th : List (String × ThresholdConfig)) (f₁ f₂ : List (String × ℚ)),
        f₁.filter (fun p => (lookupThreshold p.1 th).isSome) =
          f₂.filter (fun p => (lookupThreshold p.1 th).isSome) →
        calculate_overall_quality f₁ th = calculate_overall_quality f₂ th) ∧
    (∀ (th : List (String × ThresholdConfig)) (f : List (String × ℚ)),
        (∀ p ∈ f, lookupThreshold p.1 th = none) →
        calculate_overall_quality f th = some ⟨DataQuality.poor, 0, [], [], 0, 0, 0⟩) := by
  constructor
  · intro th f₁ f₂ hf
    unfold calculate_overall_quality
    rw [← qualityLoop_filter th f₁, ← qualityLoop_filter th f₂, hf]
  · intro th f hf
    have hfil : f.filter (fun p => (lookupThreshold p.1 th).isSome) = [] := by
      rw [List.filter_eq_nil_iff]
      intro p hp
      rw [hf p hp]
      simp
    unfold calculate_overall_quality
    rw [← qualityLoop_filter th f, hfil]
    norm_num [qualityLoop]

/-- C9 witness: a record with the unknown feature `zzz_not_a_feature` added
reports identically to one without it, and a fully-unknown record reports
score 0, quality Poor. -/
theorem calculate_overall_quality_ignores_unknown_witness :
    calculate_overall_quality [("title_tag_length", 55), ("zzz_not_a_feature", 1)]
        get_all_thresholds =
      calculate_overall_quality [("title_tag_length", 55)] get_all_thresholds ∧
    calculate_overall_quality [("zzz_not_a_feature", 1)] get_all_thresholds =
      some ⟨DataQuality.poor, 0, [], [], 0, 0, 0⟩ :=
  ⟨calculate_overall_quality_ignores_unknown.1 get_all_thresholds _ _ (by decide),
   calculate_overall_quality_ignores_unknown.2 get_all_thresholds _ (by decide)⟩

theorem value_counts_sorted_sum (l : List ℤ) : (value_counts_sorted l).sum = l.length := by
  unfold value_counts_sorted
  rw [List.Perm.sum_eq ((List.perm_insertionSort _ _).map _)]
  exact List.sum_map_count_dedup_eq_length l

/-- C3: the split never places one query id in both halves — the test mask is
`qid ∈ test_queries` and the train mask its negation — and each group-size
array (`value_counts().sort_index()`) sums to its half's row count. -/
theorem prepare_ranking_data_split (features : List (List ℚ)) (labels : List ℚ)
    (query_ids test_queries : List ℤ) :
    (∀ q : ℤ,
      q ∈ (prepare_ranking_data features labels query_ids test_queries).qid_train →
      q ∉ (prepare_ranking_data features labels query_ids test_queries).qid_test) ∧
    (prepare_ranking_data features labels query_ids test_queries).train_groups.sum =
      (prepare_ranking_data features labels query_ids test_queries).X_train.length ∧
    (prepare_ranking_data features labels query_ids test_queries).test_groups.sum =
      (prepare_ranking_data features labels query_ids test_queries).X_test.length ∧
    (prepare_ranking_data features labels query_ids test_queries).X_train.length =
      (prepare_ranking_data features labels query_ids test_queries).qid_train.length ∧
    (prepare_ranking_data features labels query_ids test_queries).X_test.length =
      (prepare_ranking_data features labels query_ids test_queries).qid_test.length := by
  refine ⟨?_, ?_, ?_, ?_, ?_⟩
  · intro q hq hq'
    simp only [prepare_ranking_data, List.mem_map, List.mem_filter] at hq hq'
    obtain ⟨r, ⟨_, hrp⟩, hrq⟩ := hq
    obtain ⟨r', ⟨_, hrp'⟩, hrq'⟩ := hq'
    rw [hrq] at hrp
    rw [hrq'] at hrp'
    rw [Bool.not_eq_true'] at hrp
    rw [hrp'] at hrp
    exact Bool.true_eq_false.mp hrp
  · simp only [prepare_ranking_data, value_counts_sorted_sum, List.length_map]
  · simp only [prepare_ranking_data, value_counts_sorted_sum, List.length_map]
  · simp only [prepare_ranking_data, List.length_map]
  · simp only [prepare_ranking_data, List.length_map]

/-- C3 witness: a concrete two-query dataset split with query 7 as the test
query keeps query 5 entirely in train, query 7 entirely in test, both group
arrays summing to their row counts. -/
theorem prepare_ranking_data_split_witness :
    ((5 : ℤ) ∈ (prepare_ranking_data [[1], [2], [3]] [0, 1, 2] [5, 7, 5] [7]).qid_train →
      (5 : ℤ) ∉ (prepare_ranking_data [[1], [2], [3]] [0, 1, 2] [5, 7, 5] [7]).qid_test) ∧
    (prepare_ranking_data [[1], [2], [3]] [0, 1, 2] [5, 7, 5] [7]).train_groups.sum =
      (prepare_ranking_data [[1], [2], [3]] [0, 1, 2] [5, 7, 5] [7]).X_train.length :=
  ⟨(prepare_ranking_data_split [[1], [2], [3]] [0, 1, 2] [5, 7, 5] [7]).1 5,
   (prepare_ranking_data_split [[1], [2], [3]] [0, 1, 2] [5, 7, 5] [7]).2.1⟩

theorem average_precision_none (g p : List ℚ) (h : ∀ l ∈ g, l < 2) :
    average_precision g p = none := by
  have hsum : (g.map fun l => if (2 : ℚ) ≤ l then (1 : ℕ) else 0).sum = 0 :=
    List.sum_eq_zero (fun x hx => by
      obtain ⟨l, hl, hxeq⟩ := List.mem_map.mp hx
      rw [← hxeq, if_neg (not_le.mpr (h l hl))])
  simp only [average_precision]
  rw [if_pos hsum]

theorem calcApScores_nil_of_irrelevant (gs : List ℕ) :
    ∀ (t p : List ℚ), (∀ l ∈ t, l < 2) → calcApScores t p gs = [] := by
  induction gs with
  | nil => intro t p _; rfl
  | cons n rest ih =>
      intro t p h
      simp only [calcApScores,
        average_precision_none _ _ (fun l hl => h l (List.take_subset n t hl))]
      exact ih _ _ (fun l hl => h l (List.drop_subset n t hl))

/-- C5: a query group with no relevant document (no label ≥ 2) is skipped by
the MAP loop — prepending such a group leaves MAP unchanged — and when no
group has a relevant document MAP is 0. -/
theorem calculate_map_skips_irrelevant :
    (∀ (tg pg t p : List ℚ) (gs : List ℕ), tg.length = pg.length →
      (∀ l ∈ tg, l < 2) →
      calculate_map (tg ++ t) (pg ++ p) (tg.length :: gs) = calculate_map t p gs) ∧
    (∀ (t p : List ℚ) (gs : List ℕ), (∀ l ∈ t, l < 2) → calculate_map t p gs = 0) := by
  constructor
  · intro tg pg t p gs hlen hirr
    have hscores : calcApScores (tg ++ t) (pg ++ p) (tg.length :: gs) =
        calcApScores t p gs := by
      simp only [calcApScores, List.take_left, List.drop_left]
      rw [hlen, List.take_left, List.drop_left,
        average_precision_none _ _ hirr]
    unfold calculate_map
    rw [hscores]
  · intro t p gs h
    unfold calculate_map
    rw [calcApScores_nil_of_irrelevant gs t p h]
    rfl

/-- C5 witness: prepending the all-irrelevant group ([1], [9/10]) leaves MAP
unchanged, and a dataset whose labels are all below 2 has MAP 0. -/
theorem calculate_map_skips_irrelevant_witness :
    calculate_map ([1] ++ [2]) ([mkRat 9 10] ++ [mkRat 1 2]) ([1].length :: [1]) =
      calculate_map [2] [mkRat 1 2] [1] ∧
    calculate_map [0, 1] [mkRat 3 10, mkRat 7 10] [2] = 0 :=
  ⟨calculate_map_skips_irrelevant.1 [1] [mkRat 9 10] [2] [mkRat 1 2] [1] rfl
      (by intro l hl; simp at hl; rw [hl]; norm_num),
   calculate_map_skips_irrelevant.2 [0, 1] [mkRat 3 10, mkRat 7 10] [2]
      (by intro l hl; simp at hl; rcases hl with h | h <;> rw [h] <;> norm_num)⟩

theorem succPerm_zero (σ : Equiv.Perm ℕ) : succPerm σ 0 = 0 := rfl

theorem succPerm_succ (σ : Equiv.Perm ℕ) (i : ℕ) : succPerm σ (i + 1) = σ i + 1 := rfl

theorem exists_perm_getD {α : Type} (d : α) {l₁ l₂ : List α} (h : l₁.Perm l₂) :
    ∃ σ : Equiv.Perm ℕ,
      (∀ i, l₁.length ≤ i → σ i = i) ∧
      (∀ i, i < l₁.length → σ i < l₁.length) ∧
      (∀ i, i < l₁.length → l₂.getD (σ i) d = l₁.getD i d) := by
  induction h with
  | nil => exact ⟨Equiv.refl ℕ, by simp, by simp, by simp⟩
  | cons x h' ih =>
      obtain ⟨σ, hfix, hlt, hget⟩ := ih
      refine ⟨succPerm σ, ?_, ?_, ?_⟩
      · intro i hi
        cases i with
        | zero => simp at hi
        | succ j =>
            rw [succPerm_succ, hfix j (by simpa using hi)]
      · intro i hi
        cases i with
        | zero => simp [succPerm_zero]
        | succ j =>
            rw [succPerm_succ]
            simpa using hlt j (by simpa using hi)
      · intro i hi
        cases i with
        | zero => rw [succPerm_zero]; rfl
        | succ j =>
            rw [succPerm_succ, List.getD_cons_succ, List.getD_cons_succ]
            exact hget j (by simpa using hi)
  | swap x y l =>
      refine ⟨Equiv.swap 0 1, ?_, ?_, ?_⟩
      · intro i hi
        simp only [List.length_cons] at hi
        exact Equiv.swap_apply_of_ne_of_ne (by omega) (by omega)
      · intro i hi
        simp only [List.length_cons] at hi ⊢
        rcases i with _ | _ | j
        · rw [Equiv.swap_apply_left]; omega
        · rw [Equiv.swap_apply_right]; omega
        · rw [Equiv.swap_apply_of_ne_of_ne (by omega) (by omega)]; omega
      · intro i hi
        rcases i with _ | _ | j
        · rw [Equiv.swap_apply_left]; rfl
        · rw [Equiv.swap_apply_right]; rfl
        · rw [Equiv.swap_apply_of_ne_of_ne (by omega) (by omega)]; rfl
  | trans h₁ h₂ ih₁ ih₂ =>
      obtain ⟨σ₁, hfix₁, hlt₁, hget₁⟩ := ih₁
      obtain ⟨σ₂, hfix₂, hlt₂, hget₂⟩ := ih₂
      have hlen : _ = _ := h₁.length_eq
      refine ⟨σ₁.trans σ₂, ?_, ?_, ?_⟩
      · intro i hi
        rw [Equiv.trans_apply, hfix₁ i hi, hfix₂ i (hlen ▸ hi)]
      · intro i hi
        rw [Equiv.trans_apply]
        have := hlt₂ (σ₁ i) (hlen ▸ hlt₁ i hi)
        omega
      · intro i hi
        rw [Equiv.trans_apply, hget₂ (σ₁ i) (hlen ▸ hlt₁ i hi), hget₁ i hi]

theorem discount_pos (i : ℕ) : 0 < Real.logb 2 (i + 2) :=
  Real.logb_pos one_lt_two (by
    have := Nat.cast_nonneg (α := ℝ) i
    linarith)

theorem one_le_discount (i : ℕ) : 1 ≤ Real.logb 2 (i + 2) := by
  have h2 : Real.logb 2 2 = 1 := Real.logb_self_eq_one one_lt_two
  rw [← h2]
  apply Real.logb_le_logb_of_le one_lt_two (by norm_num)
  have := Nat.cast_nonneg (α := ℝ) i
  linarith

theorem ndcgWeight_nonneg (k i : ℕ) : 0 ≤ ndcgWeight k i := by
  unfold ndcgWeight
  split_ifs
  · exact inv_nonneg.2 (discount_pos i).le
  · rfl

theorem ndcgWeight_antitone (k : ℕ) {i j : ℕ} (h : i ≤ j) :
    ndcgWeight k j ≤ ndcgWeight k i := by
  unfold ndcgWeight
  split_ifs with hj hi hi
  · apply inv_anti₀ (discount_pos i)
    apply Real.logb_le_logb_of_le one_lt_two
    · have := Nat.cast_nonneg (α := ℝ) i
      linarith
    · have : (i : ℝ) ≤ (j : ℝ) := Nat.cast_le.2 h
      linarith
  · exact absurd (lt_of_le_of_lt h hj) hi
  · exact inv_nonneg.2 (discount_pos i).le
  · rfl

theorem gainOf_nonneg (r : ℕ) : 0 ≤ gainOf r := by
  unfold gainOf
  have : (1 : ℝ) ≤ 2 ^ r := one_le_pow₀ (by norm_num : (1:ℝ) ≤ 2)
  linarith

theorem gainOf_mono {a b : ℕ} (h : a ≤ b) : gainOf a ≤ gainOf b := by
  unfold gainOf
  have : (2 : ℝ) ^ a ≤ 2 ^ b := pow_le_pow_right₀ one_le_two h
  linarith

theorem dcgOfGains_nonneg (gains : List ℝ) (h : ∀ g ∈ gains, 0 ≤ g) :
    0 ≤ dcgOfGains gains := by
  unfold dcgOfGains
  apply Finset.sum_nonneg
  intro i hi
  apply div_nonneg _ (discount_pos i).le
  apply h
  rw [List.getD_eq_getElem _ _ (Finset.mem_range.1 hi)]
  exact List.getElem_mem _

theorem dcg_sum_expand (gains : List ℝ) (k n : ℕ) (hlen : gains.length = min k n)
    (G : ℕ → ℝ) (hG : ∀ i, i < min k n → gains.getD i 0 = G i) :
    dcgOfGains gains = ∑ i in Finset.range n, ndcgWeight k i * G i := by
  unfold dcgOfGains
  rw [hlen]
  have h1 : ∑ i in Finset.range (min k n), gains.getD i 0 / Real.logb 2 (i + 2) =
      ∑ i in Finset.range (min k n), ndcgWeight k i * G i := by
    apply Finset.sum_congr rfl
    intro i hi
    have hik : i < k := lt_of_lt_of_le (Finset.mem_range.1 hi) (Nat.min_le_left k n)
    rw [hG i (Finset.mem_range.1 hi), ndcgWeight, if_pos hik, div_eq_mul_inv, mul_comm]
  rw [h1]
  apply Finset.sum_subset (Finset.range_subset.2 (Nat.min_le_right k n))
  intro x hx hnx
  rw [Finset.mem_range] at hx
  rw [Finset.mem_range, not_lt] at hnx
  have hxk : k ≤ x := by omega
  rw [ndcgWeight, if_neg (not_lt.2 hxk), zero_mul]

theorem sortedIndicesDesc_perm_range (y_pred : List ℚ) :
    (sortedIndicesDesc y_pred).Perm (List.range y_pred.length) :=
  (List.reverse_perm _).trans (List.perm_insertionSort _ _)

theorem sortDescNat_perm (l : List ℕ) : l.Perm (sortDescNat l) :=
  ((List.reverse_perm _).trans (List.perm_insertionSort _ _)).symm

theorem sortDescNat_antitone (l : List ℕ) {i j : ℕ} (hij : i ≤ j)
    (hj : j < (sortDescNat l).length) :
    (sortDescNat l).getD j 0 ≤ (sortDescNat l).getD i 0 := by
  have hi : i < (sortDescNat l).length := lt_of_le_of_lt hij hj
  rw [List.getD_eq_getElem _ _ hi, List.getD_eq_getElem _ _ hj]
  unfold sortDescNat at *
  rw [List.getElem_reverse, List.getElem_reverse]
  have hs := List.sorted_insertionSort (· ≤ ·) l
  have hlen : (List.insertionSort (· ≤ ·) l).length = l.length :=
    List.length_insertionSort _ _
  simp only [List.length_reverse] at hi hj
  have h1 : (List.insertionSort (· ≤ ·) l).length - 1 - j ≤
      (List.insertionSort (· ≤ ·) l).length - 1 - i := by omega
  have := hs.rel_get_of_le
    (a := ⟨(List.insertionSort (· ≤ ·) l).length - 1 - j, by omega⟩)
    (b := ⟨(List.insertionSort (· ≤ ·) l).length - 1 - i, by omega⟩) h1
  simpa [List.get_eq_getElem] using this

theorem ndcg_dcg_le_idcg (y_true : List ℕ) (y_pred : List ℚ) (k : ℕ)
    (hlen : y_pred.length = y_true.length) :
    ndcg_dcg y_true y_pred k ≤ ndcg_idcg y_true k := by
  classical
  set n := y_true.length with hn
  have hordperm : (sortedIndicesDesc y_pred).Perm (List.range n) := by
    rw [← hlen]; exact sortedIndicesDesc_perm_range y_pred
  set ord := sortedIndicesDesc y_pred with hord
  have hordlen : ord.length = n := by
    rw [hordperm.length_eq, List.length_range]
  have hordmem : ∀ x ∈ ord, x < n := fun x hx => List.mem_range.1 (hordperm.subset hx)
  have hsortperm := sortDescNat_perm y_true
  have hsortlen : (sortDescNat y_true).length = n := hsortperm.length_eq.symm
  set G : ℕ → ℝ := fun i => gainOf ((sortDescNat y_true).getD i 0) with hG
  -- index permutation τ from `range n ~ ord`
  obtain ⟨τ, hτfix, hτlt, hτget⟩ := exists_perm_getD 0 hordperm.symm
  simp only [List.length_range] at hτfix hτlt hτget
  -- index permutation ρ from `y_true ~ sortDescNat y_true`
  obtain ⟨ρ, hρfix, hρlt, hρget⟩ := exists_perm_getD 0 hsortperm
  have hτsymm_lt : ∀ j, j < n → τ.symm j < n := by
    intro j hj
    by_contra hge
    push_neg at hge
    have h1 := hτfix _ hge
    rw [Equiv.apply_symm_apply] at h1
    omega
  have hord_getD : ∀ j, j < n → ord.getD j 0 = τ.symm j := by
    intro j hj
    have h1 := hτget (τ.symm j) (hτsymm_lt j hj)
    rw [Equiv.apply_symm_apply] at h1
    rw [h1, List.getD_eq_getElem _ _ (by simpa using hτsymm_lt j hj), List.getElem_range]
  set σ : Equiv.Perm ℕ := τ.symm.trans ρ with hσ
  have hσsupp : {x | σ x ≠ x} ⊆ ↑(Finset.range n) := by
    intro x hx
    simp only [Set.mem_setOf_eq] at hx
    simp only [Finset.coe_range, Set.mem_Iio]
    by_contra hxn
    push_neg at hxn
    apply hx
    have hτx : τ.symm x = x := by
      have h1 := hτfix x hxn
      calc τ.symm x = τ.symm (τ x) := by rw [h1]
      _ = x := Equiv.symm_apply_apply τ x
    rw [hσ, Equiv.trans_apply, hτx, hρfix x hxn]
  have hMono : MonovaryOn (ndcgWeight k) G ↑(Finset.range n) := by
    intro i hi j hj hlt
    simp only [Finset.coe_range, Set.mem_Iio] at hi hj
    rcases le_or_lt i j with hij | hij
    · exfalso
      have : G j ≤ G i := gainOf_mono (sortDescNat_antitone y_true hij (by omega))
      linarith
    · exact ndcgWeight_antitone k hij.le
  have hre := hMono.sum_smul_comp_perm_le_sum_smul hσsupp
  have hGσ : ∀ i, i < n → G (σ i) = gainOf (y_true.getD (ord.getD i 0) 0) := by
    intro i hi
    rw [hord_getD i hi, hσ, Equiv.trans_apply, hG]
    have h2 := hρget (τ.symm i) (hτsymm_lt i hi)
    simp only [h2]
  have hdcg : ndcg_dcg y_true y_pred k =
      ∑ i in Finset.range n, ndcgWeight k i * G (σ i) := by
    unfold ndcg_dcg
    rw [← hord]
    apply dcg_sum_expand
    · simp only [List.length_map, List.length_take, hordlen]
      rw [min_assoc, min_self]
    · intro i hi
      have hi1 : i < ((ord.take (min k ord.length)).map
          (fun idx => gainOf (y_true.getD idx 0))).length := by
        simp only [List.length_map, List.length_take, hordlen]
        rw [min_assoc, min_self]
        exact hi
      rw [List.getD_eq_getElem _ _ hi1, List.getElem_map, List.getElem_take]
      rw [hGσ i (lt_of_lt_of_le hi (Nat.min_le_right k n))]
      congr 2
      rw [List.getD_eq_getElem]
  have hidcg : ndcg_idcg y_true k =
      ∑ i in Finset.range n, ndcgWeight k i * G i := by
    unfold ndcg_idcg
    apply dcg_sum_expand
    · simp only [List.length_map, List.length_take, hsortlen]
    · intro i hi
      have hi1 : i < (((sortDescNat y_true).take k).map gainOf).length := by
        simp only [List.length_map, List.length_take, hsortlen]
        exact hi
      rw [List.getD_eq_getElem _ _ hi1, List.getElem_map, List.getElem_take]
      rw [hG]
      congr 1
      rw [List.getD_eq_getElem]
  rw [hdcg, hidcg]
  simpa only [smul_eq_mul] using hre

/-- C2: for integer (hence non-negative) relevance grades and each k of the
evaluated cutoffs, NDCG@k — DCG over the predicted-order top-k divided by the
ideal DCG of the labels sorted descending — lies in [0,1], and is 0 whenever
the ideal DCG is 0. -/
theorem ndcg_at_k_in_unit_interval (y_true : List ℕ) (y_pred : List ℚ) (k : ℕ)
    (hlen : y_pred.length = y_true.length)
    (hk : k = 3 ∨ k = 5 ∨ k = 10 ∨ k = 20) :
    0 ≤ calculate_ndcg_at_k y_true y_pred k ∧
    calculate_ndcg_at_k y_true y_pred k ≤ 1 ∧
    (ndcg_idcg y_true k = 0 → calculate_ndcg_at_k y_true y_pred k = 0) := by
  have hdcg0 : 0 ≤ ndcg_dcg y_true y_pred k := by
    unfold ndcg_dcg
    apply dcgOfGains_nonneg
    intro g hg
    obtain ⟨idx, _, heq⟩ := List.mem_map.mp hg
    rw [← heq]
    exact gainOf_nonneg _
  have hidcg0 : 0 ≤ ndcg_idcg y_true k := by
    unfold ndcg_idcg
    apply dcgOfGains_nonneg
    intro g hg
    obtain ⟨idx, _, heq⟩ := List.mem_map.mp hg
    rw [← heq]
    exact gainOf_nonneg _
  unfold calculate_ndcg_at_k
  split_ifs with h0
  · exact ⟨le_refl 0, by norm_num, fun _ => rfl⟩
  · have hpos : 0 < ndcg_idcg y_true k := lt_of_le_of_ne hidcg0 (Ne.symm h0)
    exact ⟨div_nonneg hdcg0 hidcg0,
      (div_le_one hpos).2 (ndcg_dcg_le_idcg y_true y_pred k hlen),
      fun hz => absurd hz h0⟩

/-- C2 witness: the spec's concrete group — relevance [2,0,1], predicted scores
[0.9,0.5,0.1], k = 3. -/
theorem ndcg_at_k_in_unit_interval_witness :
    0 ≤ calculate_ndcg_at_k [2, 0, 1] [mkRat 9 10, mkRat 1 2, mkRat 1 10] 3 ∧
    calculate_ndcg_at_k [2, 0, 1] [mkRat 9 10, mkRat 1 2, mkRat 1 10] 3 ≤ 1 ∧
    (ndcg_idcg [2, 0, 1] 3 = 0 →
      calculate_ndcg_at_k [2, 0, 1] [mkRat 9 10, mkRat 1 2, mkRat 1 10] 3 = 0) :=
  ndcg_at_k_in_unit_interval [2, 0, 1] [mkRat 9 10, mkRat 1 2, mkRat 1 10] 3
    rfl (Or.inl rfl)

theorem maskIndices_spec (query_ids : List ℤ) (q : ℤ) (i : ℕ)
    (hi : i < (maskIndices query_ids q).length) :
    (maskIndices query_ids q).getD i 0 < query_ids.length ∧
      query_ids.getD ((maskIndices query_ids q).getD i 0) 0 = q := by
  have hmem : (maskIndices query_ids q).getD i 0 ∈ maskIndices query_ids q := by
    rw [List.getD_eq_getElem _ _ hi]
    exact List.getElem_mem _
  have h2 := List.mem_filter.mp hmem
  exact ⟨List.mem_range.1 h2.1, of_decide_eq_true h2.2⟩

/-- C6: when every query group's labels are all equal, no pair passes the
`q_labels[i] != q_labels[j]` guard, so `LambdaRankLoss.forward` returns 0
whatever the predicted scores. -/
theorem lambda_rank_loss_zero_on_uniform_groups (sigma : ℝ) (scores labels : List ℚ)
    (query_ids : List ℤ)
    (h : ∀ i j, i < query_ids.length → j < query_ids.length →
      query_ids.getD i 0 = query_ids.getD j 0 → labels.getD i 0 = labels.getD j 0) :
    LambdaRankLoss_forward sigma scores labels query_ids = 0 := by
  unfold LambdaRankLoss_forward
  dsimp only
  have hzero : ∀ q ∈ torchUnique query_ids,
      groupLoss sigma ((maskIndices query_ids q).map (fun i => scores.getD i 0))
        ((maskIndices query_ids q).map (fun i => labels.getD i 0)) = 0 := by
    intro q _
    unfold groupLoss
    split_ifs with hlt
    · rfl
    · apply Finset.sum_eq_zero
      intro i hi
      apply Finset.sum_eq_zero
      intro j hj
      rw [List.length_map] at hi
      have hi' : i < (maskIndices query_ids q).length := Finset.mem_range.1 hi
      have hj' : j < (maskIndices query_ids q).length := by
        have := (Finset.mem_Ico.1 hj).2
        rw [List.length_map] at this
        exact this
      rw [if_neg]
      intro hne
      apply hne
      have hgi : ((maskIndices query_ids q).map (fun i => labels.getD i 0)).getD i 0 =
          labels.getD ((maskIndices query_ids q).getD i 0) 0 := by
        rw [List.getD_eq_getElem _ _ (by rw [List.length_map]; exact hi'),
          List.getElem_map, List.getD_eq_getElem _ _ hi']
      have hgj : ((maskIndices query_ids q).map (fun i => labels.getD i 0)).getD j 0 =
          labels.getD ((maskIndices query_ids q).getD j 0) 0 := by
        rw [List.getD_eq_getElem _ _ (by rw [List.length_map]; exact hj'),
          List.getElem_map, List.getD_eq_getElem _ _ hj']
      obtain ⟨hlt_i, hq_i⟩ := maskIndices_spec query_ids q i hi'
      obtain ⟨hlt_j, hq_j⟩ := maskIndices_spec query_ids q j hj'
      rw [hgi, hgj]
      exact h _ _ hlt_i hlt_j (hq_i.trans hq_j.symm)
  have hsum : ((torchUnique query_ids).map (fun q =>
      groupLoss sigma ((maskIndices query_ids q).map (fun i => scores.getD i 0))
        ((maskIndices query_ids q).map (fun i => labels.getD i 0)))).sum = 0 := by
    apply List.sum_eq_zero
    intro x hx
    obtain ⟨q, hq, hxeq⟩ := List.mem_map.mp hx
    rw [← hxeq]
    exact hzero q hq
  rw [hsum, zero_div]

/-- C6 witness: a batch of one query group with equal labels has loss 0. -/
theorem lambda_rank_loss_zero_on_uniform_groups_witness :
    LambdaRankLoss_forward 1 [mkRat 1 2, mkRat 1 4] [1, 1] [3, 3] = 0 :=
  lambda_rank_loss_zero_on_uniform_groups 1 [mkRat 1 2, mkRat 1 4] [1, 1] [3, 3]
    (by
      intro i j hi hj _
      simp only [List.length_cons, List.length_nil] at hi hj
      interval_cases i <;> interval_cases j <;> rfl)

/-- C8 (code bug): `online_update` puts the model in training mode and
forwards a batch of one sample; with the constructor's default
`use_batch_norm=True` and a non-empty `hidden_dims`, the first `BatchNorm1d`
rejects a training batch of one row, so the call raises before any parameter
update — for every input, target, and dropout noise. -/
theorem online_update_always_raises (hp : LinearParams × List ℝ × List ℝ)
    (hps : List (LinearParams × List ℝ × List ℝ)) (outParams : LinearParams)
    (dropout : ℝ) (noise : ℕ → ℕ → ℕ → ℝ) (x : List ℝ) (y : ℝ) :
    online_update (drnLayers (hp :: hps) outParams dropout true) noise x y =
      Except.error "Expected more than 1 value per channel when training" := by
  simp [online_update, drnLayers, forwardTrain]

theorem getCol_setCol_self (df : DataFrame) (n : String) (c : PdColumn) :
    getCol (setCol df n c) n = some c := by
  induction df with
  | nil => simp [setCol, getCol]
  | cons p rest ih =>
      obtain ⟨m, d⟩ := p
      by_cases hm : m = n
      · simp [setCol, getCol, hm]
      · simp [setCol, getCol, hm, ih]

theorem getCol_setCol_ne (df : DataFrame) (n : String) (c : PdColumn) (n' : String)
    (h : n ≠ n') : getCol (setCol df n c) n' = getCol df n' := by
  induction df with
  | nil => simp [setCol, getCol, h]
  | cons p rest ih =>
      obtain ⟨m, d⟩ := p
      by_cases hm : m = n
      · subst hm
        simp [setCol, getCol, h]
      · by_cases hm' : m = n'
        · simp [setCol, getCol, hm, hm', Ne.symm h]
        · simp [setCol, getCol, hm, hm', ih]

theorem getCol_ratioStepImageAlt (df : DataFrame) (n : String)
    (h : n ≠ "image_alt_ratio") : getCol (ratioStepImageAlt df) n = getCol df n := by
  unfold ratioStepImageAlt
  split_ifs
  · cases getCol df "images_with_alt_text" <;> cases getCol df "image_count" <;>
      first
        | rfl
        | exact getCol_setCol_ne _ _ _ _ (Ne.symm h)
  · rfl

theorem getCol_ratioStepAuthority (df : DataFrame) (n : String)
    (h1 : n ≠ "high_authority_ratio") (h2 : n ≠ "authority_concentration") :
    getCol (ratioStepAuthority df) n = getCol df n := by
  unfold ratioStepAuthority
  split_ifs
  · cases getCol df "high_authority_links" <;> cases getCol df "low_authority_links" <;>
      cases getCol df "total_backlinks" <;>
      first
        | rfl
        | rw [getCol_setCol_ne _ _ _ _ (Ne.symm h2), getCol_setCol_ne _ _ _ _ (Ne.symm h1)]
  · rfl

theorem getCol_ratioStepAnchors (df : DataFrame) (n : String)
    (h1 : n ≠ "exact_match_anchor_ratio") (h2 : n ≠ "partial_match_anchor_ratio")
    (h3 : n ≠ "branded_anchor_ratio") (h4 : n ≠ "generic_anchor_ratio") :
    getCol (ratioStepAnchors df) n = getCol df n := by
  have e1 : "exact_match_anchors".dropRight "_anchors".length ++ "_anchor_ratio" =
      "exact_match_anchor_ratio" := rfl
  have e2 : "partial_match_anchors".dropRight "_anchors".length ++ "_anchor_ratio" =
      "partial_match_anchor_ratio" := rfl
  have e3 : "branded_anchors".dropRight "_anchors".length ++ "_anchor_ratio" =
      "branded_anchor_ratio" := rfl
  have e4 : "generic_anchors".dropRight "_anchors".length ++ "_anchor_ratio" =
      "generic_anchor_ratio" := rfl
  unfold ratioStepAnchors
  dsimp only
  split_ifs
  · simp only [List.foldl_cons, List.foldl_nil]
    cases getCol df "exact_match_anchors" <;> cases getCol df "partial_match_anchors" <;>
      cases getCol df "branded_anchors" <;> cases getCol df "generic_anchors" <;>
      dsimp only <;>
      simp only [e1, e2, e3, e4] <;>
      repeat rw [getCol_setCol_ne _ _ _ _ (by
        first
          | exact Ne.symm h1
          | exact Ne.symm h2
          | exact Ne.symm h3
          | exact Ne.symm h4)]
  · rfl

theorem getCol_ratioStepContentCode (df : DataFrame) (n : String)
    (h : n ≠ "content_to_code_ratio") :
    getCol (ratioStepContentCode df) n = getCol df n := by
  unfold ratioStepContentCode
  split_ifs
  · cases getCol df "content_length" <;> cases getCol df "javascript_size" <;>
      cases getCol df "css_size" <;>
      first
        | rfl
        | exact getCol_setCol_ne _ _ _ _ (Ne.symm h)
  · rfl

theorem getCol_ratioStepEngagement (df : DataFrame) (n : String)
    (h : n ≠ "engagement_efficiency") :
    getCol (ratioStepEngagement df) n = getCol df n := by
  unfold ratioStepEngagement
  split_ifs
  · cases getCol df "engagement_rate" <;> cases getCol df "bounce_rate" <;>
      first
        | rfl
        | exact getCol_setCol_ne _ _ _ _ (Ne.symm h)
  · rfl

/-- C7: in the ratio step, a row whose `total_backlinks` is 0 gets
`dofollow_ratio` exactly 0.0 — the `np.where` guard selects the default, no
division is observable and no error is raised. -/
theorem create_ratio_features_dofollow_zero (df : DataFrame)
    (dofollow total : PdColumn) (i : ℕ)
    (h1 : getCol df "dofollow_links" = some dofollow)
    (h2 : getCol df "total_backlinks" = some total)
    (hlen : i < dofollow.cells.length)
    (h0 : total.cells.getD i PdValue.null = PdValue.num 0) :
    ∃ c, getCol (create_ratio_features df) "dofollow_ratio" = some c ∧
      c.cells.getD i PdValue.null = PdValue.num 0 := by
  have hti : i < total.cells.length := by
    by_contra hge
    push_neg at hge
    rw [List.getD_eq_default _ _ hge] at h0
    exact PdValue.noConfusion h0
  have h1' : getCol (ratioStepImageAlt df) "dofollow_links" = some dofollow := by
    rw [getCol_ratioStepImageAlt _ _ (by decide)]
    exact h1
  have h2' : getCol (ratioStepImageAlt df) "total_backlinks" = some total := by
    rw [getCol_ratioStepImageAlt _ _ (by decide)]
    exact h2
  have hset : getCol (ratioStepDofollow (ratioStepImageAlt df)) "dofollow_ratio" =
      some (whereGtZero total (colDiv dofollow total) 0) := by
    unfold ratioStepDofollow
    rw [if_pos (by simp [hasCols, hasCol, h1', h2'])]
    rw [h1', h2']
    exact getCol_setCol_self _ _ _
  have hfin : getCol (create_ratio_features df) "dofollow_ratio" =
      some (whereGtZero total (colDiv dofollow total) 0) := by
    unfold create_ratio_features
    rw [getCol_ratioStepEngagement _ _ (by decide),
      getCol_ratioStepContentCode _ _ (by decide),
      getCol_ratioStepAnchors _ _ (by decide) (by decide) (by decide) (by decide),
      getCol_ratioStepAuthority _ _ (by decide) (by decide)]
    exact hset
  refine ⟨_, hfin, ?_⟩
  rw [List.getD_eq_getElem _ _ hti] at h0
  have hzlen : i < (List.zipWith (fun cv v =>
      match cv with
      | PdValue.num c => if 0 < c then v else PdValue.num 0
      | _ => PdValue.num 0) total.cells (colDiv dofollow total).cells).length := by
    simp only [List.length_zipWith, colDiv]
    omega
  rw [show whereGtZero total (colDiv dofollow total) 0 =
    ⟨PdType.float, List.zipWith (fun cv v =>
      match cv with
      | PdValue.num c => if 0 < c then v else PdValue.num 0
      | _ => PdValue.num 0) total.cells (colDiv dofollow total).cells⟩ from rfl]
  rw [List.getD_eq_getElem _ _ hzlen, List.getElem_zipWith, h0]
  norm_num

/-- C7 witness: a one-row frame with `total_backlinks` 0 yields
`dofollow_ratio` 0. -/
theorem create_ratio_features_dofollow_zero_witness :
    ∃ c, getCol (create_ratio_features
        [("dofollow_links", ⟨PdType.float, [PdValue.num 5]⟩),
         ("total_backlinks", ⟨PdType.float, [PdValue.num 0]⟩)]) "dofollow_ratio" =
      some c ∧ c.cells.getD 0 PdValue.null = PdValue.num 0 :=
  create_ratio_features_dofollow_zero
    [("dofollow_links", ⟨PdType.float, [PdValue.num 5]⟩),
     ("total_backlinks", ⟨PdType.float, [PdValue.num 0]⟩)]
    ⟨PdType.float, [PdValue.num 5]⟩ ⟨PdType.float, [PdValue.num 0]⟩ 0
    rfl rfl (by norm_num) rfl

theorem create_text_features_refit (df : DataFrame) (tfin tf' : Option TfidfModel)
    (d5 : DataFrame) (h : create_text_features df true tfin = Except.ok (d5, tf')) :
    create_text_features df false tf' = Except.ok (d5, tf') := by
  unfold create_text_features at h ⊢
  dsimp only at h ⊢
  by_cases hf : (textStepFrame df).2 = []
  · rw [if_neg (by simp [hf]), if_neg (by simp [hf])] at h
    rw [if_neg (by simp [hf]), if_neg (by simp [hf])]
    obtain ⟨he1, he2⟩ : (textStepFrame df).1 = d5 ∧ tfin = tf' := by
      simpa using h
    rw [he1]
  · rw [if_pos (by simp [hf])] at h
    rw [if_neg (by simp), if_pos (by simp [hf])]
    obtain ⟨he1, he2⟩ :
        appendTfidf (textStepFrame df).1
          (tfidfTransform (tfidfFit (combinedTextRows (textStepFrame df).1 (textStepFrame df).2))
            (combinedTextRows (textStepFrame df).1 (textStepFrame df).2))
          (tfidfFit (combinedTextRows (textStepFrame df).1 (textStepFrame df).2)).vocabulary.length
          = d5 ∧
        some (tfidfFit (combinedTextRows (textStepFrame df).1 (textStepFrame df).2)) = tf' := by
      simpa using h
    rw [← he2, ← he1]

theorem scalerFit_ok_facts (kind : ScalerType) (df : DataFrame)
    (stats : List (String × ℝ × ℝ)) (h : scalerFit kind df = Except.ok stats) :
    stats.map Prod.fst = numericNames df ∧ hasNaNNumeric df = false := by
  unfold scalerFit at h
  split_ifs at h with hn
  obtain rfl : ((df.filter (fun nc => nc.2.dtype = PdType.float)).map (fun nc =>
      (nc.1, scalerColumnStats kind nc.2))) = stats := Except.ok.inj h
  refine ⟨?_, by simpa using hn⟩
  simp [numericNames, List.map_map, Function.comp]

theorem scalePhase_refit (kind : ScalerType) (prev0 : Option (List (String × ℝ × ℝ)))
    (df8 : DataFrame) (tfSt : Option TfidfModel) (out1 : DataFrame) (st1 : EngineerState)
    (h : scalePhase kind true prev0 df8 tfSt = Except.ok (out1, st1)) :
    st1.tfidfState = tfSt ∧
    ∃ st2, scalePhase kind false st1.scalerStats df8 tfSt = Except.ok (out1, st2) := by
  cases kind with
  | noScaler =>
      obtain ⟨he1, he2⟩ : df8 = out1 ∧ (⟨prev0, tfSt⟩ : EngineerState) = st1 := by
        simpa [scalePhase] using h
      rw [← he2]
      exact ⟨rfl, ⟨⟨prev0, tfSt⟩, by simp [scalePhase, he1]⟩⟩
  | standard =>
      rw [show scalePhase ScalerType.standard true prev0 df8 tfSt =
        (match scalerFit ScalerType.standard df8 with
         | Except.error e => Except.error e
         | Except.ok stats =>
             Except.ok (scalerApply stats df8, ⟨some stats, tfSt⟩)) from rfl] at h
      cases hsf : scalerFit ScalerType.standard df8 with
      | error e => rw [hsf] at h; exact absurd h (by simp)
      | ok stats =>
          rw [hsf] at h
          obtain ⟨he1, he2⟩ : scalerApply stats df8 = out1 ∧
              (⟨some stats, tfSt⟩ : EngineerState) = st1 := by simpa using h
          obtain ⟨hnames, hnan⟩ := scalerFit_ok_facts _ _ _ hsf
          rw [← he2]
          refine ⟨rfl, ⟨⟨some stats, tfSt⟩, ?_⟩⟩
          simp only [scalePhase]
          rw [if_pos hnames, he1]
          simp [hnan]
  | robust =>
      rw [show scalePhase ScalerType.robust true prev0 df8 tfSt =
        (match scalerFit ScalerType.robust df8 with
         | Except.error e => Except.error e
         | Except.ok stats =>
             Except.ok (scalerApply stats df8, ⟨some stats, tfSt⟩)) from rfl] at h
      cases hsf : scalerFit ScalerType.robust df8 with
      | error e => rw [hsf] at h; exact absurd h (by simp)
      | ok stats =>
          rw [hsf] at h
          obtain ⟨he1, he2⟩ : scalerApply stats df8 = out1 ∧
              (⟨some stats, tfSt⟩ : EngineerState) = st1 := by simpa using h
          obtain ⟨hnames, hnan⟩ := scalerFit_ok_facts _ _ _ hsf
          rw [← he2]
          refine ⟨rfl, ⟨⟨some stats, tfSt⟩, ?_⟩⟩
          simp only [scalePhase]
          rw [if_pos hnames, he1]
          simp [hnan]

/-- **C4.** `engineer_features` is deterministic across a fit/transform pair: a
successful `fit=True` call on a frame returns an output frame and a fitted
state (stored TF-IDF vocabulary/idf and scaler statistics) such that the
`fit=False` call with that state on the same frame reproduces the output frame
exactly. -/
theorem engineer_features_fit_then_transform (cfg : EngineerConfig) (df : DataFrame)
    (st0 st1 : EngineerState) (out1 : DataFrame)
    (h : engineer_features cfg df true st0 = Except.ok (out1, st1)) :
    ∃ st2, engineer_features cfg df false st1 = Except.ok (out1, st2) := by
  unfold engineer_features at h ⊢
  by_cases hct : cfg.create_text
  · rw [if_pos hct] at h ⊢
    cases htf : create_text_features (preTextFrame cfg df) true st0.tfidfState with
    | error e =>
        rw [htf] at h
        exact absurd h (by simp)
    | ok p =>
        obtain ⟨df5, tfSt⟩ := p
        rw [htf] at h
        have h' : scalePhase cfg.scaler_type true st0.scalerStats (postTextFrame df5) tfSt =
            Except.ok (out1, st1) := h
        obtain ⟨hst, st2, hs2⟩ := scalePhase_refit cfg.scaler_type st0.scalerStats
          (postTextFrame df5) tfSt out1 st1 h'
        rw [hst, create_text_features_refit (preTextFrame cfg df) st0.tfidfState tfSt df5 htf]
        exact ⟨st2, hs2⟩
  · rw [if_neg hct] at h ⊢
    have h' : scalePhase cfg.scaler_type true st0.scalerStats
        (postTextFrame (preTextFrame cfg df)) st0.tfidfState = Except.ok (out1, st1) := h
    obtain ⟨hst, st2, hs2⟩ := scalePhase_refit cfg.scaler_type st0.scalerStats
      (postTextFrame (preTextFrame cfg df)) st0.tfidfState out1 st1 h'
    rw [hst]
    exact ⟨st2, hs2⟩

theorem engineer_features_fit_then_transform_witness :
    ∃ st2, engineer_features ⟨ScalerType.noScaler, false, false, false, false⟩ [] false
        ⟨none, none⟩ =
      Except.ok (postTextFrame
        (preTextFrame ⟨ScalerType.noScaler, false, false, false, false⟩ []), st2) :=
  engineer_features_fit_then_transform ⟨ScalerType.noScaler, false, false, false, false⟩ []
    ⟨none, none⟩ ⟨none, none⟩ _ rfl
